import Mathlib

/-
  Verification development for the midori background-transition core.

  The two source files embedded here are:
    src/pipeline/transition-pass.ts  (the TransitionPass orchestrator)
    src/background.js               (the Background scene unit)

  Numbers are modelled as rationals; JS object identity is modelled by
  explicit numeric ids; JS exceptions (TypeError on a null/undefined
  dereference) are modelled by Except.error.  External collaborators
  (three.js math utilities, the camera depth helper, Math.random, and the
  tween animation engine) are modelled per their documented interfaces.
-/

namespace Midori

/-- The linear easing TWEEN.Easing.Linear.None, which is the identity on the
progress scalar. -/
def linearNone : ℚ → ℚ := fun k => k

/-- External collaborators consumed through opaque interfaces:
`depthFn` models `getMaxFullScreenDepthForPlane(plane, camera, 0)` from
background-camera.js (a function of the plane dimensions and the viewport
size; the offset argument is the constant 0 at the single call site), and
`degToRad` models three.js `MathUtils.degToRad`.  Neither function's body is
part of the two embedded source files, so they are kept abstract. -/
structure Externals where
  depthFn : ℚ → ℚ → ℚ → ℚ → ℚ
  degToRad : ℚ → ℚ

/-- Modelled from the spec: the wipe direction enum exported by
wipe-shader.ts (not part of the two embedded files); the spec names only the
default `Right`. -/
inductive WipeDirection where
  | Left
  | Right
  | Up
  | Down
deriving DecidableEq

/-- Modelled from the spec: the slide direction enum exported by
slide-shader.ts (not part of the two embedded files); the spec names only the
default `Right`. -/
inductive SlideDirection where
  | Left
  | Right
  | Up
  | Down
deriving DecidableEq

/-- The TransitionType enum of transition-pass.ts. -/
inductive TransitionType where
  | None
  | Blend
  | Blur
  | Wipe
  | Slide
  | Glitch
deriving DecidableEq, Inhabited

/-- The shader programs referenced by the transition switch.  Their GPU
contents are external; only their identity matters here. -/
inductive ShaderKind where
  | BlendShader
  | WipeShader
  | SlideShader
  | BlurShader
  | GlitchShader
deriving DecidableEq, Inhabited

/-- A named-uniform map.  Every uniform name that the transition pass ever
reads or writes appears as an optional field; `none` means the name is absent
from the map. -/
structure Uniforms where
  mixRatio : Option ℚ := none
  amount : Option ℚ := none
  prevAmount : Option ℚ := none
  aspect : Option ℚ := none
  gradient : Option ℚ := none
  angle : Option ℚ := none
  slides : Option ℚ := none
  intensity : Option ℚ := none
  samples : Option ℚ := none
  seed : Option ℚ := none
  wipeDirection : Option WipeDirection := none
  slideDirection : Option SlideDirection := none
  resolution : Option (ℚ × ℚ) := none
deriving DecidableEq, Inhabited

/-- Keep `p` when present, otherwise fall back to `u`. -/
def overlay {α : Type} (p u : Option α) : Option α :=
  match p with
  | some v => some v
  | none => u

/-- Modelled from the spec: `TransitionEffect.updateUniforms(partial)` of
src/effects/effect.ts (not part of the two embedded files) merges the given
values into the live uniform set without replacing unrelated entries. -/
def Uniforms.updateUniforms (u p : Uniforms) : Uniforms :=
  { mixRatio := overlay p.mixRatio u.mixRatio,
    amount := overlay p.amount u.amount,
    prevAmount := overlay p.prevAmount u.prevAmount,
    aspect := overlay p.aspect u.aspect,
    gradient := overlay p.gradient u.gradient,
    angle := overlay p.angle u.angle,
    slides := overlay p.slides u.slides,
    intensity := overlay p.intensity u.intensity,
    samples := overlay p.samples u.samples,
    seed := overlay p.seed u.seed,
    wipeDirection := overlay p.wipeDirection u.wipeDirection,
    slideDirection := overlay p.slideDirection u.slideDirection,
    resolution := overlay p.resolution u.resolution }

/-- Modelled from the spec: the TransitionEffect of src/effects/effect.ts
(not part of the two embedded files) wraps one shader program plus its live
uniform values; `getUniforms()` returns the current set.  The numeric `id`
models JS object identity so that disposal of distinct effect objects can be
tracked. -/
structure TransitionEffect where
  id : ℕ
  shader : ShaderKind
  uniforms : Uniforms
deriving DecidableEq, Inhabited

/-- The pixel dimensions of a decoded image (texture.image). -/
structure ImageDims where
  width : ℚ
  height : ℚ
deriving DecidableEq

/-- A three.js texture as far as background.js inspects it: it may or may not
carry a decoded image. -/
structure Texture where
  image : Option ImageDims
deriving DecidableEq

/-- The Background scene unit of background.js.  `texture` is the constructor
argument, which also becomes the backdrop material's `map`; `width`/`height`
are the live buffer/camera size; the plane and particle extents are fixed at
construction; `frames` counts camera/particle update ticks performed by
`render`; `disposedFlag` records that `dispose` ran to completion. -/
structure Background where
  id : ℕ
  texture : Option Texture
  width : ℚ
  height : ℚ
  planeWidth : ℚ
  planeHeight : ℚ
  particlesWidth : ℚ
  particlesHeight : ℚ
  particlesMaxDepth : ℚ
  frames : ℕ
  disposedFlag : Bool
deriving DecidableEq, Inhabited

/-- The `texture && texture.image ? texture.image.width / texture.image.height : 1`
expression of the Background constructor. -/
def textureAspectRatio (texture : Option Texture) : ℚ :=
  match texture with
  | some t =>
    match t.image with
    | some img => img.width / img.height
    | none => 1
  | none => 1

/-- The Background constructor: a unit-width plane whose height is the
reciprocal of the source aspect ratio, particle boundaries 1.1 times the
plane's, and the particle depth bound taken from the camera helper. -/
def Background.construct (ext : Externals) (id : ℕ) (texture : Option Texture)
    (width height : ℚ) : Background :=
  let aspect := textureAspectRatio texture
  let planeW : ℚ := 1
  let planeH : ℚ := 1 / aspect
  { id := id,
    texture := texture,
    width := width,
    height := height,
    planeWidth := planeW,
    planeHeight := planeH,
    particlesWidth := planeW * (11 / 10),
    particlesHeight := planeH * (11 / 10),
    particlesMaxDepth := ext.depthFn planeW planeH width height,
    frames := 0,
    disposedFlag := false }

/-- Background.setSize: resizes the camera and internal buffer; the plane and
particle extents are untouched. -/
def Background.setSize (b : Background) (width height : ℚ) : Background :=
  { b with width := width, height := height }

/-- The state mutation of Background.render: one camera update and one
particle update per call (the GPU output itself is external). -/
def Background.renderTick (b : Background) : Background :=
  { b with frames := b.frames + 1 }

/-- Background.dispose: releases the buffer, its textures, the plane geometry
and material, then dereferences `this._plane.material.map.dispose()`.  The
material map is the constructor texture, so a unit built with a null texture
throws a TypeError at that line. -/
def Background.dispose (b : Background) : Except String Background :=
  match b.texture with
  | some _ => .ok { b with disposedFlag := true }
  | none => .error "TypeError: null material map in Background.dispose"

/-- A WebGLRenderTarget as far as the transition pass drives it: its size and
a count of frames rendered into it. -/
structure RenderTarget where
  width : ℚ
  height : ℚ
  writes : ℕ
deriving DecidableEq

/-- The optional-field configuration surface of a transition call.  The TS
sources declare one interface per kind; all their optional fields are pooled
here, with the two differently-typed `direction` keys split by kind.  The
user lifecycle callbacks (onInit/onStart/onUpdate/onComplete/onStop) observe
but never change the modelled state and are omitted. -/
structure BackgroundTransitionConfig where
  easing : Option (ℚ → ℚ) := none
  duration : Option ℚ := none
  delay : Option ℚ := none
  gradient : Option ℚ := none
  angle : Option ℚ := none
  wipeDirection : Option WipeDirection := none
  slides : Option ℚ := none
  intensity : Option ℚ := none
  samples : Option ℚ := none
  slideDirection : Option SlideDirection := none
  seed : Option ℚ := none

/-- The kind-specific parameters resolved by the `_getTransitionConfig`
switch. -/
inductive KindParams where
  | nonep : KindParams
  | blend : KindParams
  | wipe (gradient angleDeg : ℚ) (direction : WipeDirection) : KindParams
  | slide (slides intensity samples : ℚ) (direction : SlideDirection) : KindParams
  | blur (intensity samples : ℚ) : KindParams
  | glitch (seed : ℚ) : KindParams
deriving DecidableEq, Inhabited

/-- Whether a parameter record was produced by the switch branch of the given
kind. -/
def kindMatches : TransitionType → KindParams → Bool
  | .None, .nonep => true
  | .Blend, .blend => true
  | .Wipe, .wipe _ _ _ => true
  | .Slide, .slide _ _ _ _ => true
  | .Blur, .blur _ _ => true
  | .Glitch, .glitch _ => true
  | _, _ => false

/-- The timing fields and kind parameters produced by `_getTransitionConfig`:
easing defaults to TWEEN.Easing.Linear.None, duration and delay default to 0
and are scaled from seconds to milliseconds, and each switch branch fills its
per-kind defaults.  `rng` is the value `Math.random()` returns when a Glitch
transition omits its seed. -/
structure ResolvedTransitionConfig where
  easing : ℚ → ℚ
  duration : ℚ
  delay : ℚ
  params : KindParams

def resolveConfig (kind : TransitionType) (cfg : BackgroundTransitionConfig)
    (rng : ℚ) : ResolvedTransitionConfig :=
  { easing := cfg.easing.getD linearNone,
    duration := cfg.duration.getD 0 * 1000,
    delay := cfg.delay.getD 0 * 1000,
    params :=
      match kind with
      | .None => .nonep
      | .Blend => .blend
      | .Wipe => .wipe (cfg.gradient.getD 0) (cfg.angle.getD 0) (cfg.wipeDirection.getD .Right)
      | .Slide => .slide (cfg.slides.getD 1) (cfg.intensity.getD 1) (cfg.samples.getD 32)
          (cfg.slideDirection.getD .Right)
      | .Blur => .blur (cfg.intensity.getD 1) (cfg.samples.getD 32)
      | .Glitch => .glitch (cfg.seed.getD rng) }

/-- The per-transition data the tween callbacks close over: the kind, the
captured new background argument, and the resolved kind parameters. -/
structure TransCtx where
  kind : TransitionType
  background : Option Background
  params : KindParams
deriving DecidableEq, Inhabited

/-- Modelled from the spec: the ProgressAnimation provided by the external
animation engine (@tweenjs/tween.js), per spec sections 3, 5 and 6: a scalar
advanced from 0 to 1 over `duration` after `delay` with the configured
easing; `start` records the start time and makes it play; the first `update`
at or past the start time fires the start callback; every `update` past the
start time fires the update callback with the eased amount; reaching the
clamped elapsed fraction 1 fires the completion callback and stops it; an
explicit `stop` of a playing animation fires the stop callback. -/
structure Tween where
  playing : Bool
  startFired : Bool
  startTime : ℚ
  duration : ℚ
  easing : ℚ → ℚ
  amount : ℚ
  ctx : Option TransCtx

/-- The field initializer `new TWEEN.Tween()`: a tween that was never
started. -/
def Tween.initial : Tween :=
  { playing := false, startFired := false, startTime := 0, duration := 0,
    easing := linearNone, amount := 0, ctx := none }

/-- The clamped elapsed fraction the tween engine computes at an update at
time `t`: 1 when the duration is 0, otherwise (t - startTime)/duration capped
at 1. -/
def tweenElapsed (tw : Tween) (t : ℚ) : ℚ :=
  if tw.duration = 0 then 1
  else if (t - tw.startTime) / tw.duration > 1 then 1
  else (t - tw.startTime) / tw.duration

/-- The TransitionPass orchestrator state.  `effectDisposedBelow` counts the
effect ids already disposed (effects are created with consecutive ids and
always disposed oldest-first), and `disposedBgs` records the ids of
backgrounds whose dispose ran. -/
structure TransitionPass where
  externals : Externals
  width : ℚ
  height : ℚ
  prevBackground : Background
  buffer : RenderTarget
  tween : Tween
  transitionEffect : Option TransitionEffect
  enabled : Bool
  nextEffectId : ℕ
  effectDisposedBelow : ℕ
  nextBgId : ℕ
  disposedBgs : List ℕ

/-- The TransitionPass constructor: retains the given background or
synthesizes a blank one, allocates the intermediate buffer, and starts
disabled with a never-started tween. -/
def TransitionPass.construct (ext : Externals) (background : Option Background)
    (width height : ℚ) : TransitionPass :=
  { externals := ext,
    width := width,
    height := height,
    prevBackground := background.getD (Background.construct ext 0 none width height),
    buffer := { width := width, height := height, writes := 0 },
    tween := Tween.initial,
    transitionEffect := none,
    enabled := false,
    nextEffectId := 0,
    effectDisposedBelow := 0,
    nextBgId := match background with | some _ => 0 | none => 1,
    disposedBgs := [] }

/-- TransitionPass.isTransitioning: whether the tween reports it is
playing. -/
def TransitionPass.isTransitioning (s : TransitionPass) : Bool :=
  s.tween.playing

/-- TransitionPass.setSize: stores the new size and resizes the previous
background and the intermediate buffer. -/
def TransitionPass.setSize (s : TransitionPass) (width height : ℚ) : TransitionPass :=
  { s with
    width := width,
    height := height,
    prevBackground := s.prevBackground.setSize width height,
    buffer := { s.buffer with width := width, height := height, writes := s.buffer.writes } }

/-- TransitionPass._setTransitionEffect: disposes any prior effect, then
installs a fresh TransitionEffect over the given shader and initial
uniforms. -/
def TransitionPass.setTransitionEffect (s : TransitionPass) (shader : ShaderKind)
    (uniforms : Uniforms) : TransitionPass :=
  match s.transitionEffect with
  | some old =>
    { s with
      effectDisposedBelow := old.id + 1,
      transitionEffect := some { id := s.nextEffectId, shader := shader, uniforms := uniforms },
      nextEffectId := s.nextEffectId + 1 }
  | none =>
    { s with
      transitionEffect := some { id := s.nextEffectId, shader := shader, uniforms := uniforms },
      nextEffectId := s.nextEffectId + 1 }

/-- The `onTransitionEnd` closure of `_getTransitionConfig`: disable the
pass, dispose the current previous background (propagating the TypeError a
blank unit raises), then adopt the captured new background, or synthesize a
blank unit at the current size when none was supplied. -/
def TransitionPass.onTransitionEnd (s : TransitionPass) (c : TransCtx) :
    Except String TransitionPass :=
  match s.prevBackground.dispose with
  | .error e => .error e
  | .ok _ =>
    match c.background with
    | some bg =>
      .ok { s with
        enabled := false,
        prevBackground := bg,
        disposedBgs := s.prevBackground.id :: s.disposedBgs }
    | none =>
      .ok { s with
        enabled := false,
        prevBackground := Background.construct s.externals s.nextBgId none s.width s.height,
        nextBgId := s.nextBgId + 1,
        disposedBgs := s.prevBackground.id :: s.disposedBgs }

/-- `this._transition.stop()`: a no-op on a tween that is not playing;
otherwise the tween stops playing and its stop callback runs the Ending logic
of the transition it belongs to, synchronously. -/
def TransitionPass.stopTween (s : TransitionPass) : Except String TransitionPass :=
  if s.tween.playing then
    match s.tween.ctx with
    | some c =>
      TransitionPass.onTransitionEnd { s with tween := { s.tween with playing := false } } c
    | none => .ok { s with tween := { s.tween with playing := false } }
  else .ok s

/-- The kind-specific `onStart` bodies of the `_getTransitionConfig` switch:
each constructs its effect with its initial uniforms.  Every branch except
None also runs `onTransitionStart`, enabling the pass; the None branch calls
the raw user onStart instead of the base one and therefore never enables the
pass. -/
def TransitionPass.applyOnStart (s : TransitionPass) (c : TransCtx) : TransitionPass :=
  match c.params with
  | .nonep =>
    s.setTransitionEffect .BlendShader { mixRatio := some 1 }
  | .blend =>
    { s.setTransitionEffect .BlendShader {} with enabled := true }
  | .wipe gradient angleDeg direction =>
    { s.setTransitionEffect .WipeShader
        { gradient := some gradient,
          angle := some (s.externals.degToRad angleDeg),
          wipeDirection := some direction,
          aspect := some (s.width / s.height) } with enabled := true }
  | .slide slides intensity samples direction =>
    { s.setTransitionEffect .SlideShader
        { slides := some slides, intensity := some intensity,
          samples := some samples, slideDirection := some direction } with enabled := true }
  | .blur intensity samples =>
    { s.setTransitionEffect .BlurShader
        { intensity := some intensity, samples := some samples } with enabled := true }
  | .glitch seed =>
    { s.setTransitionEffect .GlitchShader
        { seed := some seed, resolution := some (s.width, s.height) } with enabled := true }

/-- Replace the uniforms of the current effect. -/
def TransitionPass.withUniforms (s : TransitionPass) (e : TransitionEffect)
    (u : Uniforms) : TransitionPass :=
  { s with transitionEffect := some { e with uniforms := u } }

/-- The kind-specific `onUpdate` bodies: each dereferences the current effect
(a TypeError when it has not been constructed) and pushes the uniforms the
switch derives from the live amount.  Wipe re-reads the live aspect; Slide
and Blur read back the previously written `amount` as `prevAmount` before
overwriting it; Glitch re-syncs the live resolution in place. -/
def TransitionPass.applyOnUpdate (s : TransitionPass) (c : TransCtx) (amount : ℚ) :
    Except String TransitionPass :=
  match c.kind with
  | .None => .ok s
  | .Blend =>
    match s.transitionEffect with
    | none => .error "TypeError: undefined transitionEffect in onUpdate"
    | some e =>
      .ok (s.withUniforms e (e.uniforms.updateUniforms { mixRatio := some amount }))
  | .Wipe =>
    match s.transitionEffect with
    | none => .error "TypeError: undefined transitionEffect in onUpdate"
    | some e =>
      .ok (s.withUniforms e (e.uniforms.updateUniforms
        { amount := some amount, aspect := some (s.width / s.height) }))
  | .Slide =>
    match s.transitionEffect with
    | none => .error "TypeError: undefined transitionEffect in onUpdate"
    | some e =>
      .ok (s.withUniforms e (e.uniforms.updateUniforms
        { prevAmount := e.uniforms.amount, amount := some amount }))
  | .Blur =>
    match s.transitionEffect with
    | none => .error "TypeError: undefined transitionEffect in onUpdate"
    | some e =>
      .ok (s.withUniforms e (e.uniforms.updateUniforms
        { prevAmount := e.uniforms.amount, amount := some amount }))
  | .Glitch =>
    match s.transitionEffect with
    | none => .error "TypeError: undefined transitionEffect in onUpdate"
    | some e =>
      .ok (s.withUniforms e
        (Uniforms.updateUniforms { e.uniforms with resolution := some (s.width, s.height) }
          { amount := some amount }))

/-- The start-callback phase of a tween update: on the first update at or
past the start time, run the kind's onStart body and record that the start
callback fired. -/
def TransitionPass.startPhase (s : TransitionPass) (c : TransCtx) : TransitionPass :=
  if s.tween.startFired then s
  else
    { s.applyOnStart c with
      tween := { (s.applyOnStart c).tween with startFired := true } }

/-- Store the freshly eased amount in the tweened object. -/
def TransitionPass.withAmount (s : TransitionPass) (value : ℚ) : TransitionPass :=
  { s with tween := { s.tween with amount := value } }

/-- The completion phase of a tween update: at clamped elapsed fraction 1,
fire the completion callback (the Ending logic) and stop the tween. -/
def TransitionPass.finishPhase (s : TransitionPass) (c : TransCtx) (elapsed : ℚ) :
    Except String TransitionPass :=
  if elapsed = 1 then
    match s.onTransitionEnd c with
    | .error e => .error e
    | .ok s4 => .ok { s4 with tween := { s4.tween with playing := false } }
  else .ok s

/-- One external animation-engine update at time `t`, as driven once per
frame by the host: nothing happens unless the tween is playing and `t` has
reached its start time; the first such update fires the start callback; every
such update fires the update callback with the eased clamped amount; elapsed
fraction 1 fires the completion callback and stops the tween. -/
def TransitionPass.tick (s : TransitionPass) (t : ℚ) : Except String TransitionPass :=
  if s.tween.playing = false then .ok s
  else
    match s.tween.ctx with
    | none => .ok s
    | some c =>
      if t < s.tween.startTime then .ok s
      else
        match ((s.startPhase c).withAmount
            ((s.startPhase c).tween.easing (tweenElapsed (s.startPhase c).tween t))).applyOnUpdate
            c ((s.startPhase c).tween.easing (tweenElapsed (s.startPhase c).tween t)) with
        | .error e => .error e
        | .ok s3 => s3.finishPhase c (tweenElapsed (s.startPhase c).tween t)

/-- TransitionPass.transition: resolve the configuration, stop any in-flight
tween (running that transition's Ending logic synchronously), run the user
onInit, and start a fresh tween from amount 0 to 1 whose callbacks close over
the captured background and resolved parameters.  `now` is the engine clock
at the `start()` call and `rng` the `Math.random()` draw for a defaulted
Glitch seed. -/
def TransitionPass.transition (s : TransitionPass) (now : ℚ)
    (background : Option Background) (kind : TransitionType)
    (cfg : BackgroundTransitionConfig) (rng : ℚ) : Except String TransitionPass :=
  match s.stopTween with
  | .error e => .error e
  | .ok s1 =>
    .ok { s1 with tween :=
      { playing := true,
        startFired := false,
        startTime := now + (resolveConfig kind cfg rng).delay,
        duration := (resolveConfig kind cfg rng).duration,
        easing := (resolveConfig kind cfg rng).easing,
        amount := 0,
        ctx := some
          { kind := kind,
            background := background,
            params := (resolveConfig kind cfg rng).params } } }

/-- TransitionPass.render: when a transition is occurring, render the
previous background into the intermediate buffer and composite through the
current effect (a TypeError when the effect has not been constructed);
otherwise do nothing at all. -/
def TransitionPass.render (s : TransitionPass) : Except String TransitionPass :=
  if s.tween.playing then
    match s.transitionEffect with
    | none => .error "TypeError: undefined transitionEffect in TransitionPass.render"
    | some _ =>
      .ok { s with
        prevBackground := s.prevBackground.renderTick,
        buffer := { s.buffer with writes := s.buffer.writes + 1 } }
  else .ok s

/-- TransitionPass.dispose: stop the tween (running any in-flight Ending
logic), dispose the previous background, dispose the buffer, and finally
dereference `this._transitionEffect.dispose()` - a TypeError when no
transition ever constructed an effect. -/
def TransitionPass.dispose (s : TransitionPass) : Except String Unit :=
  match s.stopTween with
  | .error e => .error e
  | .ok s1 =>
    match s1.prevBackground.dispose with
    | .error e => .error e
    | .ok _ =>
      match s1.transitionEffect with
      | none => .error "TypeError: undefined transitionEffect in TransitionPass.dispose"
      | some _ => .ok ()

/-- The public operations a host can drive between construction and disposal,
each tagged with the data the call site supplies. -/
inductive Act where
  | transition (now : ℚ) (background : Option Background) (kind : TransitionType)
      (cfg : BackgroundTransitionConfig) (rng : ℚ)
  | tick (t : ℚ)
  | setSize (width height : ℚ)
  | render

/-- Execute one public operation. -/
def step (s : TransitionPass) : Act → Except String TransitionPass
  | .transition now bg kind cfg rng => s.transition now bg kind cfg rng
  | .tick t => s.tick t
  | .setSize w h => .ok (s.setSize w h)
  | .render => s.render

/-- Execute a sequence of public operations, propagating the first thrown
TypeError. -/
def run (s : TransitionPass) : List Act → Except String TransitionPass
  | [] => .ok s
  | a :: rest =>
    match step s a with
    | .error e => .error e
    | .ok s1 => run s1 rest

/-- The kind of the transition the current tween belongs to, when any. -/
def ctxKind (s : TransitionPass) : Option TransitionType :=
  s.tween.ctx.map TransCtx.kind

/-- The uniform set of the current effect (a default empty set when no effect
has been constructed; only used where the effect is known to exist). -/
def currentUniforms (s : TransitionPass) : Uniforms :=
  (s.transitionEffect.map TransitionEffect.uniforms).getD default

/-- The effect-id bookkeeping is coherent: the ids below the current effect's
are exactly the disposed ones, and ids are allocated consecutively. -/
def effCountersB (s : TransitionPass) : Bool :=
  match s.transitionEffect with
  | none => s.effectDisposedBelow == s.nextEffectId
  | some e => s.effectDisposedBelow == e.id && s.nextEffectId == e.id + 1

/-- The current tween's stored parameters came from its own kind's switch
branch. -/
def ctxMatchesB (s : TransitionPass) : Bool :=
  match s.tween.ctx with
  | some c => kindMatches c.kind c.params
  | none => true

/-- The state invariant maintained by every public operation: the pass is
enabled exactly when a non-None transition's animation is playing and has
fired its start callback; a fired start callback implies a transition context
exists; an enabled pass has a constructed effect; and the effect-id and
context bookkeeping is coherent. -/
def Inv (s : TransitionPass) : Prop :=
  (s.enabled = true ↔
    (s.tween.playing = true ∧ s.tween.startFired = true ∧
      ctxKind s ≠ some TransitionType.None))
  ∧ (s.tween.startFired = true → s.tween.ctx.isSome = true)
  ∧ (s.enabled = true → s.transitionEffect.isSome = true)
  ∧ effCountersB s = true
  ∧ ctxMatchesB s = true

theorem effCountersB_congr (s1 s2 : TransitionPass)
    (he : s2.transitionEffect = s1.transitionEffect)
    (hb : s2.effectDisposedBelow = s1.effectDisposedBelow)
    (hn : s2.nextEffectId = s1.nextEffectId) :
    effCountersB s2 = effCountersB s1 := by
  unfold effCountersB
  rw [he, hb, hn]

theorem ctxMatchesB_congr (s1 s2 : TransitionPass)
    (hc : s2.tween.ctx = s1.tween.ctx) :
    ctxMatchesB s2 = ctxMatchesB s1 := by
  unfold ctxMatchesB
  rw [hc]

theorem onTransitionEnd_ok (s : TransitionPass) (c : TransCtx) (s1 : TransitionPass)
    (h : s.onTransitionEnd c = .ok s1) :
    s1.enabled = false ∧ s1.tween = s.tween ∧
    s1.transitionEffect = s.transitionEffect ∧
    s1.effectDisposedBelow = s.effectDisposedBelow ∧
    s1.nextEffectId = s.nextEffectId ∧
    s1.disposedBgs = s.prevBackground.id :: s.disposedBgs ∧
    s1.width = s.width ∧ s1.height = s.height ∧ s1.externals = s.externals ∧
    (∀ bg, c.background = some bg → s1.prevBackground = bg) ∧
    (c.background = none →
      s1.prevBackground = Background.construct s.externals s.nextBgId none s.width s.height) := by
  unfold TransitionPass.onTransitionEnd at h
  split at h
  · simp at h
  · split at h
    case _ bg hbg =>
      injection h with h
      subst h
      refine ⟨rfl, rfl, rfl, rfl, rfl, rfl, rfl, rfl, rfl, ?_, ?_⟩
      · intro bg2 hbg2
        rw [hbg] at hbg2
        exact Option.some.inj hbg2
      · intro hnone
        rw [hbg] at hnone
        simp at hnone
    case _ hbg =>
      injection h with h
      subst h
      refine ⟨rfl, rfl, rfl, rfl, rfl, rfl, rfl, rfl, rfl, ?_, fun _ => rfl⟩
      intro bg2 hbg2
      rw [hbg] at hbg2
      simp at hbg2

theorem stopTween_ok (s : TransitionPass) (s1 : TransitionPass)
    (hInv : Inv s)
    (h : s.stopTween = .ok s1) :
    s1.enabled = false ∧ s1.tween.playing = false ∧
    s1.transitionEffect = s.transitionEffect ∧
    s1.effectDisposedBelow = s.effectDisposedBelow ∧
    s1.nextEffectId = s.nextEffectId ∧
    s1.width = s.width ∧ s1.height = s.height ∧ s1.externals = s.externals ∧
    (∀ i, i ∈ s.disposedBgs → i ∈ s1.disposedBgs) ∧
    (s.tween.playing = true → ∀ c, s.tween.ctx = some c →
      s.prevBackground.id ∈ s1.disposedBgs) := by
  obtain ⟨hiff, hsf, hen, hcnt, hmat⟩ := hInv
  unfold TransitionPass.stopTween at h
  split at h
  case isTrue hplay =>
    split at h
    case _ c hc =>
      have hspec := onTransitionEnd_ok _ c s1 h
      obtain ⟨h1, h2, h3, h4, h5, h6, _, _, _, _, _⟩ := hspec
      refine ⟨h1, ?_, h3, h4, h5, ?_, ?_, ?_, ?_, ?_⟩
      · rw [h2]
      · obtain ⟨_, _, _, _, _, _, hw, _, _, _, _⟩ := onTransitionEnd_ok _ c s1 h
        exact hw
      · obtain ⟨_, _, _, _, _, _, _, hh, _, _, _⟩ := onTransitionEnd_ok _ c s1 h
        exact hh
      · obtain ⟨_, _, _, _, _, _, _, _, hx, _, _⟩ := onTransitionEnd_ok _ c s1 h
        exact hx
      · intro i hi
        rw [h6]
        exact List.mem_cons_of_mem _ hi
      · intro _ _ _
        rw [h6]
        exact List.mem_cons_self _ _
    case _ hc =>
      injection h with h
      subst h
      have hen2 : s.enabled = false := by
        by_contra hne
        have htrue : s.enabled = true := by
          cases hval : s.enabled
          · exact absurd hval hne
          · rfl
        have := hiff.mp htrue
        have hctx := hsf this.2.1
        rw [hc] at hctx
        exact Bool.noConfusion hctx
      exact ⟨hen2, rfl, rfl, rfl, rfl, rfl, rfl, rfl, fun i hi => hi,
        fun _ c hcc => absurd hcc (by rw [hc]; exact fun hx => Option.noConfusion hx)⟩
  case isFalse hplay =>
    injection h with h
    subst h
    have hpl : s.tween.playing = false := by
      cases hval : s.tween.playing
      · rfl
      · exact absurd hval hplay
    have hen2 : s.enabled = false := by
      by_contra hne
      have htrue : s.enabled = true := by
        cases hval : s.enabled
        · exact absurd hval hne
        · rfl
      have := hiff.mp htrue
      rw [hpl] at this
      exact Bool.noConfusion this.1
    exact ⟨hen2, hpl, rfl, rfl, rfl, rfl, rfl, rfl, fun i hi => hi,
      fun hp => absurd hp (by rw [hpl]; exact fun hx => Bool.noConfusion hx)⟩

theorem kindMatches_resolve (kind : TransitionType) (cfg : BackgroundTransitionConfig)
    (rng : ℚ) : kindMatches kind (resolveConfig kind cfg rng).params = true := by
  cases kind <;> rfl

theorem kindMatches_nonep (kind : TransitionType) (p : KindParams)
    (h : kindMatches kind p = true) (hk : kind ≠ TransitionType.None) :
    p ≠ KindParams.nonep := by
  cases kind <;> cases p <;> simp_all [kindMatches]

theorem kindMatches_none_kind (p : KindParams)
    (h : kindMatches TransitionType.None p = true) : p = KindParams.nonep := by
  cases p <;> simp_all [kindMatches]

theorem setTransitionEffect_tween (s : TransitionPass) (sh : ShaderKind) (u : Uniforms) :
    (s.setTransitionEffect sh u).tween = s.tween := by
  unfold TransitionPass.setTransitionEffect
  cases s.transitionEffect <;> rfl

theorem setTransitionEffect_enabled (s : TransitionPass) (sh : ShaderKind) (u : Uniforms) :
    (s.setTransitionEffect sh u).enabled = s.enabled := by
  unfold TransitionPass.setTransitionEffect
  cases s.transitionEffect <;> rfl

theorem setTransitionEffect_effect (s : TransitionPass) (sh : ShaderKind) (u : Uniforms) :
    (s.setTransitionEffect sh u).transitionEffect =
      some { id := s.nextEffectId, shader := sh, uniforms := u } := by
  unfold TransitionPass.setTransitionEffect
  cases s.transitionEffect <;> rfl

theorem setTransitionEffect_nextEffectId (s : TransitionPass) (sh : ShaderKind) (u : Uniforms) :
    (s.setTransitionEffect sh u).nextEffectId = s.nextEffectId + 1 := by
  unfold TransitionPass.setTransitionEffect
  cases s.transitionEffect <;> rfl

theorem setTransitionEffect_prevBackground (s : TransitionPass) (sh : ShaderKind) (u : Uniforms) :
    (s.setTransitionEffect sh u).prevBackground = s.prevBackground := by
  unfold TransitionPass.setTransitionEffect
  cases s.transitionEffect <;> rfl

theorem setTransitionEffect_disposedBgs (s : TransitionPass) (sh : ShaderKind) (u : Uniforms) :
    (s.setTransitionEffect sh u).disposedBgs = s.disposedBgs := by
  unfold TransitionPass.setTransitionEffect
  cases s.transitionEffect <;> rfl

theorem setTransitionEffect_width (s : TransitionPass) (sh : ShaderKind) (u : Uniforms) :
    (s.setTransitionEffect sh u).width = s.width := by
  unfold TransitionPass.setTransitionEffect
  cases s.transitionEffect <;> rfl

theorem setTransitionEffect_height (s : TransitionPass) (sh : ShaderKind) (u : Uniforms) :
    (s.setTransitionEffect sh u).height = s.height := by
  unfold TransitionPass.setTransitionEffect
  cases s.transitionEffect <;> rfl

theorem setTransitionEffect_externals (s : TransitionPass) (sh : ShaderKind) (u : Uniforms) :
    (s.setTransitionEffect sh u).externals = s.externals := by
  unfold TransitionPass.setTransitionEffect
  cases s.transitionEffect <;> rfl

theorem setTransitionEffect_nextBgId (s : TransitionPass) (sh : ShaderKind) (u : Uniforms) :
    (s.setTransitionEffect sh u).nextBgId = s.nextBgId := by
  unfold TransitionPass.setTransitionEffect
  cases s.transitionEffect <;> rfl

theorem setTransitionEffect_buffer (s : TransitionPass) (sh : ShaderKind) (u : Uniforms) :
    (s.setTransitionEffect sh u).buffer = s.buffer := by
  unfold TransitionPass.setTransitionEffect
  cases s.transitionEffect <;> rfl

theorem setTransitionEffect_counters (s : TransitionPass) (sh : ShaderKind) (u : Uniforms)
    (h : effCountersB s = true) : effCountersB (s.setTransitionEffect sh u) = true := by
  unfold TransitionPass.setTransitionEffect
  unfold effCountersB at h ⊢
  cases he : s.transitionEffect with
  | none =>
    rw [he] at h
    simp only [he]
    simp only [beq_iff_eq] at h ⊢
    simp [h]
  | some e =>
    rw [he] at h
    simp only [he]
    simp only [Bool.and_eq_true, beq_iff_eq] at h ⊢
    exact ⟨by omega, by trivial⟩

theorem effCountersB_id_congr (s1 s2 : TransitionPass)
    (he : s2.transitionEffect.map TransitionEffect.id = s1.transitionEffect.map TransitionEffect.id)
    (hb : s2.effectDisposedBelow = s1.effectDisposedBelow)
    (hn : s2.nextEffectId = s1.nextEffectId) :
    effCountersB s2 = effCountersB s1 := by
  unfold effCountersB
  cases h1 : s1.transitionEffect <;> cases h2 : s2.transitionEffect <;>
    rw [h1, h2] at he <;> simp_all

theorem effCountersB_withTween (s : TransitionPass) (tw : Tween) :
    effCountersB { s with tween := tw } = effCountersB s :=
  effCountersB_congr s { s with tween := tw } rfl rfl rfl

theorem effCountersB_enabledTrue (s : TransitionPass) :
    effCountersB { s with enabled := true } = effCountersB s :=
  effCountersB_congr s { s with enabled := true } rfl rfl rfl

theorem applyOnStart_tween (s : TransitionPass) (c : TransCtx) :
    (s.applyOnStart c).tween = s.tween := by
  cases hp : c.params <;>
    simp [TransitionPass.applyOnStart, hp, setTransitionEffect_tween]

theorem applyOnStart_effect_isSome (s : TransitionPass) (c : TransCtx) :
    (s.applyOnStart c).transitionEffect.isSome = true := by
  cases hp : c.params <;>
    simp [TransitionPass.applyOnStart, hp, setTransitionEffect_effect]

theorem applyOnStart_enabled (s : TransitionPass) (c : TransCtx) :
    (s.applyOnStart c).enabled =
      (if c.params = KindParams.nonep then s.enabled else true) := by
  cases hp : c.params <;>
    simp [TransitionPass.applyOnStart, hp, setTransitionEffect_enabled]

theorem applyOnStart_prevBackground (s : TransitionPass) (c : TransCtx) :
    (s.applyOnStart c).prevBackground = s.prevBackground := by
  cases hp : c.params <;>
    simp [TransitionPass.applyOnStart, hp, setTransitionEffect_prevBackground]

theorem applyOnStart_disposedBgs (s : TransitionPass) (c : TransCtx) :
    (s.applyOnStart c).disposedBgs = s.disposedBgs := by
  cases hp : c.params <;>
    simp [TransitionPass.applyOnStart, hp, setTransitionEffect_disposedBgs]

theorem applyOnStart_width (s : TransitionPass) (c : TransCtx) :
    (s.applyOnStart c).width = s.width := by
  cases hp : c.params <;>
    simp [TransitionPass.applyOnStart, hp, setTransitionEffect_width]

theorem applyOnStart_height (s : TransitionPass) (c : TransCtx) :
    (s.applyOnStart c).height = s.height := by
  cases hp : c.params <;>
    simp [TransitionPass.applyOnStart, hp, setTransitionEffect_height]

theorem applyOnStart_externals (s : TransitionPass) (c : TransCtx) :
    (s.applyOnStart c).externals = s.externals := by
  cases hp : c.params <;>
    simp [TransitionPass.applyOnStart, hp, setTransitionEffect_externals]

theorem applyOnStart_nextBgId (s : TransitionPass) (c : TransCtx) :
    (s.applyOnStart c).nextBgId = s.nextBgId := by
  cases hp : c.params <;>
    simp [TransitionPass.applyOnStart, hp, setTransitionEffect_nextBgId]

theorem applyOnStart_nextEffectId_ge (s : TransitionPass) (c : TransCtx) :
    s.nextEffectId ≤ (s.applyOnStart c).nextEffectId := by
  cases hp : c.params <;>
    simp [TransitionPass.applyOnStart, hp, setTransitionEffect_nextEffectId] <;> omega

theorem applyOnStart_counters (s : TransitionPass) (c : TransCtx)
    (h : effCountersB s = true) : effCountersB (s.applyOnStart c) = true := by
  cases hp : c.params <;>
    unfold TransitionPass.applyOnStart <;> rw [hp] <;>
    first
    | exact setTransitionEffect_counters s _ _ h
    | (rw [effCountersB_enabledTrue]
       exact setTransitionEffect_counters s _ _ h)

theorem applyOnUpdate_ok (s : TransitionPass) (c : TransCtx) (a : ℚ)
    (s1 : TransitionPass) (h : s.applyOnUpdate c a = .ok s1) :
    s1.tween = s.tween ∧ s1.enabled = s.enabled ∧
    s1.effectDisposedBelow = s.effectDisposedBelow ∧
    s1.nextEffectId = s.nextEffectId ∧
    s1.disposedBgs = s.disposedBgs ∧
    s1.prevBackground = s.prevBackground ∧
    s1.width = s.width ∧ s1.height = s.height ∧ s1.externals = s.externals ∧
    s1.nextBgId = s.nextBgId ∧
    s1.transitionEffect.map TransitionEffect.id = s.transitionEffect.map TransitionEffect.id ∧
    (c.kind ≠ TransitionType.None → s1.transitionEffect.isSome = true) := by
  unfold TransitionPass.applyOnUpdate at h
  split at h
  case _ hk =>
    injection h with h
    subst h
    refine ⟨rfl, rfl, rfl, rfl, rfl, rfl, rfl, rfl, rfl, rfl, rfl, ?_⟩
    intro hne
    exact absurd hk fun hx => hne hx
  all_goals (
    rename_i hk
    split at h <;>
      [skip;
       (rename_i e he
        injection h with h
        subst h
        refine ⟨rfl, rfl, rfl, rfl, rfl, rfl, rfl, rfl, rfl, rfl, ?_, fun _ => rfl⟩
        rw [he]
        rfl)] <;>
    simp at h)

theorem startPhase_tween_playing (s : TransitionPass) (c : TransCtx) :
    (s.startPhase c).tween.playing = s.tween.playing := by
  unfold TransitionPass.startPhase
  split <;> simp [applyOnStart_tween]

theorem startPhase_tween_ctx (s : TransitionPass) (c : TransCtx) :
    (s.startPhase c).tween.ctx = s.tween.ctx := by
  unfold TransitionPass.startPhase
  split <;> simp [applyOnStart_tween]

theorem startPhase_tween_startFired (s : TransitionPass) (c : TransCtx) :
    (s.startPhase c).tween.startFired = true := by
  unfold TransitionPass.startPhase
  split
  case isTrue hx => exact hx
  case isFalse hx => simp

theorem startPhase_tween_startTime (s : TransitionPass) (c : TransCtx) :
    (s.startPhase c).tween.startTime = s.tween.startTime := by
  unfold TransitionPass.startPhase
  split <;> simp [applyOnStart_tween]

theorem startPhase_tween_duration (s : TransitionPass) (c : TransCtx) :
    (s.startPhase c).tween.duration = s.tween.duration := by
  unfold TransitionPass.startPhase
  split <;> simp [applyOnStart_tween]

theorem startPhase_tween_easing (s : TransitionPass) (c : TransCtx) :
    (s.startPhase c).tween.easing = s.tween.easing := by
  unfold TransitionPass.startPhase
  split <;> simp [applyOnStart_tween]

theorem startPhase_enabled (s : TransitionPass) (c : TransCtx) :
    (s.startPhase c).enabled =
      (if s.tween.startFired = true then s.enabled
       else if c.params = KindParams.nonep then s.enabled else true) := by
  unfold TransitionPass.startPhase
  split
  case isTrue hx => simp [hx]
  case isFalse hx =>
    simp [applyOnStart_enabled]

theorem startPhase_prevBackground (s : TransitionPass) (c : TransCtx) :
    (s.startPhase c).prevBackground = s.prevBackground := by
  unfold TransitionPass.startPhase
  split <;> simp [applyOnStart_prevBackground]

theorem startPhase_disposedBgs (s : TransitionPass) (c : TransCtx) :
    (s.startPhase c).disposedBgs = s.disposedBgs := by
  unfold TransitionPass.startPhase
  split <;> simp [applyOnStart_disposedBgs]

theorem startPhase_width (s : TransitionPass) (c : TransCtx) :
    (s.startPhase c).width = s.width := by
  unfold TransitionPass.startPhase
  split <;> simp [applyOnStart_width]

theorem startPhase_height (s : TransitionPass) (c : TransCtx) :
    (s.startPhase c).height = s.height := by
  unfold TransitionPass.startPhase
  split <;> simp [applyOnStart_height]

theorem startPhase_externals (s : TransitionPass) (c : TransCtx) :
    (s.startPhase c).externals = s.externals := by
  unfold TransitionPass.startPhase
  split <;> simp [applyOnStart_externals]

theorem startPhase_nextBgId (s : TransitionPass) (c : TransCtx) :
    (s.startPhase c).nextBgId = s.nextBgId := by
  unfold TransitionPass.startPhase
  split <;> simp [applyOnStart_nextBgId]

theorem startPhase_nextEffectId_ge (s : TransitionPass) (c : TransCtx) :
    s.nextEffectId ≤ (s.startPhase c).nextEffectId := by
  unfold TransitionPass.startPhase
  split
  · exact Nat.le_refl _
  · exact applyOnStart_nextEffectId_ge s c

theorem startPhase_counters (s : TransitionPass) (c : TransCtx)
    (h : effCountersB s = true) : effCountersB (s.startPhase c) = true := by
  unfold TransitionPass.startPhase
  split
  · exact h
  · exact Eq.trans (effCountersB_congr (s.applyOnStart c) _ rfl rfl rfl)
      (applyOnStart_counters s c h)

theorem startPhase_effect_of_not_fired (s : TransitionPass) (c : TransCtx)
    (h : s.tween.startFired = false) :
    (s.startPhase c).transitionEffect.isSome = true := by
  unfold TransitionPass.startPhase
  split
  case isTrue hx => rw [h] at hx; exact absurd hx (by simp)
  case isFalse hx =>
    rw [show ({ s.applyOnStart c with
      tween := { (s.applyOnStart c).tween with startFired := true } } :
        TransitionPass).transitionEffect = (s.applyOnStart c).transitionEffect from rfl]
    exact applyOnStart_effect_isSome s c

theorem startPhase_of_fired (s : TransitionPass) (c : TransCtx)
    (h : s.tween.startFired = true) : s.startPhase c = s := by
  unfold TransitionPass.startPhase
  rw [if_pos h]

theorem startPhase_effect_eq_of_fired (s : TransitionPass) (c : TransCtx)
    (h : s.tween.startFired = true) :
    (s.startPhase c).transitionEffect = s.transitionEffect := by
  rw [startPhase_of_fired s c h]

theorem finishPhase_ok (s : TransitionPass) (c : TransCtx) (el : ℚ)
    (s1 : TransitionPass) (h : s.finishPhase c el = .ok s1) :
    (el = 1 ∧ s1.enabled = false ∧ s1.tween.playing = false ∧
      s1.tween.startFired = s.tween.startFired ∧ s1.tween.ctx = s.tween.ctx ∧
      s1.transitionEffect = s.transitionEffect ∧
      s1.effectDisposedBelow = s.effectDisposedBelow ∧
      s1.nextEffectId = s.nextEffectId ∧
      s1.disposedBgs = s.prevBackground.id :: s.disposedBgs ∧
      s1.width = s.width ∧ s1.height = s.height ∧
      (∀ bg, c.background = some bg → s1.prevBackground = bg) ∧
      (c.background = none →
        s1.prevBackground = Background.construct s.externals s.nextBgId none s.width s.height))
    ∨ (el ≠ 1 ∧ s1 = s) := by
  unfold TransitionPass.finishPhase at h
  split at h
  case isTrue he =>
    left
    split at h
    · simp at h
    case _ s4 hend =>
      injection h with h
      subst h
      obtain ⟨h1, h2, h3, h4, h5, h6, h7, h8, h9, h10, h11⟩ := onTransitionEnd_ok s c s4 hend
      refine ⟨he, h1, rfl, ?_, ?_, h3, h4, h5, h6, h7, h8, h10, h11⟩
      · have hx := congrArg Tween.startFired h2
        exact hx
      · have hx := congrArg Tween.ctx h2
        exact hx
  case isFalse he =>
    right
    injection h with h
    subst h
    exact ⟨he, rfl⟩

theorem ctxMatchesB_some (s : TransitionPass) (c : TransCtx)
    (h : s.tween.ctx = some c) :
    ctxMatchesB s = kindMatches c.kind c.params := by
  unfold ctxMatchesB
  rw [h]

theorem transition_inv (s : TransitionPass) (now : ℚ) (bg : Option Background)
    (kind : TransitionType) (cfg : BackgroundTransitionConfig) (rng : ℚ)
    (s1 : TransitionPass) (hInv : Inv s)
    (h : s.transition now bg kind cfg rng = .ok s1) : Inv s1 := by
  unfold TransitionPass.transition at h
  split at h
  · simp at h
  case _ s0 hstop =>
    injection h with h
    subst h
    obtain ⟨he0, hp0, heff0, hb0, hn0, _, _, _, _, _⟩ := stopTween_ok s s0 hInv hstop
    obtain ⟨hiff, hsf, hen, hcnt, hmat⟩ := hInv
    refine ⟨?_, ?_, ?_, ?_, ?_⟩
    · simp [ctxKind, he0]
    · simp
    · simp [he0]
    · have h1 : effCountersB s0 = effCountersB s := effCountersB_congr s s0 heff0 hb0 hn0
      have h2 := effCountersB_withTween s0
        { playing := true,
          startFired := false,
          startTime := now + (resolveConfig kind cfg rng).delay,
          duration := (resolveConfig kind cfg rng).duration,
          easing := (resolveConfig kind cfg rng).easing,
          amount := 0,
          ctx := some
            { kind := kind,
              background := bg,
              params := (resolveConfig kind cfg rng).params } }
      rw [h2, h1]
      exact hcnt
    · simp [ctxMatchesB, kindMatches_resolve]

theorem setSize_inv (s : TransitionPass) (w h : ℚ) (hInv : Inv s) :
    Inv (s.setSize w h) := by
  obtain ⟨hiff, hsf, hen, hcnt, hmat⟩ := hInv
  exact ⟨hiff, hsf, hen, hcnt, hmat⟩

theorem render_ok (s : TransitionPass) (s1 : TransitionPass)
    (h : s.render = .ok s1) :
    s1.tween = s.tween ∧ s1.enabled = s.enabled ∧
    s1.transitionEffect = s.transitionEffect ∧
    s1.effectDisposedBelow = s.effectDisposedBelow ∧
    s1.nextEffectId = s.nextEffectId ∧
    s1.disposedBgs = s.disposedBgs := by
  unfold TransitionPass.render at h
  split at h
  · split at h
    · simp at h
    · injection h with h
      subst h
      exact ⟨rfl, rfl, rfl, rfl, rfl, rfl⟩
  · injection h with h
    subst h
    exact ⟨rfl, rfl, rfl, rfl, rfl, rfl⟩

theorem render_inv (s : TransitionPass) (s1 : TransitionPass) (hInv : Inv s)
    (h : s.render = .ok s1) : Inv s1 := by
  obtain ⟨ht, he, hf, hb, hn, hd⟩ := render_ok s s1 h
  obtain ⟨hiff, hsf, hen, hcnt, hmat⟩ := hInv
  refine ⟨?_, ?_, ?_, ?_, ?_⟩
  · rw [he, ht]
    unfold ctxKind
    rw [ht]
    exact hiff
  · rw [ht]
    exact hsf
  · rw [he, hf]
    exact hen
  · rw [effCountersB_congr s s1 hf hb hn]
    exact hcnt
  · rw [ctxMatchesB_congr s s1 (congrArg Tween.ctx ht)]
    exact hmat

theorem tick_inv (s : TransitionPass) (t : ℚ) (s1 : TransitionPass)
    (hInv : Inv s) (h : s.tick t = .ok s1) : Inv s1 := by
  obtain ⟨hiff, hsf, hen, hcnt, hmat⟩ := hInv
  unfold TransitionPass.tick at h
  split at h
  case isTrue hp =>
    injection h with h
    subst h
    exact ⟨hiff, hsf, hen, hcnt, hmat⟩
  case isFalse hp =>
    have hplay : s.tween.playing = true := by
      cases hv : s.tween.playing
      · exact absurd hv hp
      · rfl
    split at h
    · injection h with h
      subst h
      exact ⟨hiff, hsf, hen, hcnt, hmat⟩
    case _ c hc =>
      split at h
      case isTrue hts =>
        injection h with h
        subst h
        exact ⟨hiff, hsf, hen, hcnt, hmat⟩
      case isFalse hts =>
        have hkm : kindMatches c.kind c.params = true := by
          rw [← ctxMatchesB_some s c hc]
          exact hmat
        have hsp_play := startPhase_tween_playing s c
        have hsp_ctx := startPhase_tween_ctx s c
        have hsp_sf := startPhase_tween_startFired s c
        have hsp_en := startPhase_enabled s c
        have hsp_cnt := startPhase_counters s c hcnt
        split at h
        · simp at h
        case _ s3 hupd =>
          obtain ⟨ht3, he3, hb3, hn3, hd3, hpv3, hw3, hh3, hx3, hg3, hid3, hsome3⟩ :=
            applyOnUpdate_ok _ c _ s3 hupd
          have hp3 : s3.tween.playing = true := by
            have hx0 := congrArg Tween.playing ht3
            have hx : s3.tween.playing = (s.startPhase c).tween.playing := hx0
            rw [hx, hsp_play, hplay]
          have hc3 : s3.tween.ctx = some c := by
            have hx0 := congrArg Tween.ctx ht3
            have hx : s3.tween.ctx = (s.startPhase c).tween.ctx := hx0
            rw [hx, hsp_ctx, hc]
          have hf3 : s3.tween.startFired = true := by
            have hx0 := congrArg Tween.startFired ht3
            have hx : s3.tween.startFired = (s.startPhase c).tween.startFired := hx0
            rw [hx, hsp_sf]
          have hen3 : s3.enabled = (s.startPhase c).enabled := he3
          have hcnt3 : effCountersB s3 = true :=
            Eq.trans (effCountersB_id_congr _ s3 hid3 hb3 hn3)
              (Eq.trans (effCountersB_congr (s.startPhase c) _ rfl rfl rfl) hsp_cnt)
          have hmat3 : ctxMatchesB s3 = true := by
            rw [ctxMatchesB_some s3 c hc3]
            exact hkm
          have hen_val : s3.enabled = true ↔ c.kind ≠ TransitionType.None := by
            rw [hen3, hsp_en]
            by_cases hck : c.kind = TransitionType.None
            · have hpn : c.params = KindParams.nonep :=
                kindMatches_none_kind c.params (by rw [hck] at hkm; exact hkm)
              have hal : s.enabled = false := by
                cases hv : s.enabled
                · rfl
                · have hq := hiff.mp hv
                  exact absurd
                    (show ctxKind s = some TransitionType.None by
                      unfold ctxKind
                      rw [hc]
                      simp [hck])
                    hq.2.2
              simp [hpn, hal, hck]
            · have hpn : c.params ≠ KindParams.nonep :=
                kindMatches_nonep c.kind c.params hkm hck
              constructor
              · intro _
                exact hck
              · intro _
                by_cases hsf0 : s.tween.startFired = true
                · rw [if_pos hsf0]
                  exact hiff.mpr ⟨hplay, hsf0, by
                    unfold ctxKind
                    rw [hc]
                    simp [hck]⟩
                · rw [if_neg hsf0, if_neg hpn]
          rcases finishPhase_ok s3 c _ s1 h with
            ⟨hel, f1, f2, f3, f4, f5, f6, f7, f8, f9, f10, f11, f12⟩ | ⟨hne, heq⟩
          · refine ⟨?_, ?_, ?_, ?_, ?_⟩
            · simp [f1, f2]
            · intro _
              rw [f4, hc3]
              rfl
            · rw [f1]
              intro hx
              exact Bool.noConfusion hx
            · rw [effCountersB_congr s3 s1 f5 f6 f7]
              exact hcnt3
            · rw [ctxMatchesB_congr s3 s1 f4]
              exact hmat3
          · subst heq
            refine ⟨?_, ?_, ?_, ?_, ?_⟩
            · constructor
              · intro hx
                refine ⟨hp3, hf3, ?_⟩
                unfold ctxKind
                rw [hc3]
                simpa using hen_val.mp hx
              · rintro ⟨_, _, hx⟩
                apply hen_val.mpr
                unfold ctxKind at hx
                rw [hc3] at hx
                intro hk
                exact hx (by simp [hk])
            · intro _
              rw [hc3]
              rfl
            · intro hx
              exact hsome3 (hen_val.mp hx)
            · exact hcnt3
            · exact hmat3

theorem stopTween_mono (s : TransitionPass) (s1 : TransitionPass)
    (h : s.stopTween = .ok s1) :
    s.nextEffectId ≤ s1.nextEffectId ∧ ∀ i ∈ s.disposedBgs, i ∈ s1.disposedBgs := by
  unfold TransitionPass.stopTween at h
  split at h
  · split at h
    case _ c hc =>
      obtain ⟨_, _, _, _, h5, h6, _, _, _, _, _⟩ := onTransitionEnd_ok _ c s1 h
      constructor
      · exact Nat.le_of_eq h5.symm
      · intro i hi
        rw [h6]
        exact List.mem_cons_of_mem _ hi
    case _ =>
      injection h with h
      subst h
      exact ⟨Nat.le_refl _, fun i hi => hi⟩
  · injection h with h
    subst h
    exact ⟨Nat.le_refl _, fun i hi => hi⟩

theorem transition_mono (s : TransitionPass) (now : ℚ) (bg : Option Background)
    (kind : TransitionType) (cfg : BackgroundTransitionConfig) (rng : ℚ)
    (s1 : TransitionPass) (h : s.transition now bg kind cfg rng = .ok s1) :
    s.nextEffectId ≤ s1.nextEffectId ∧ ∀ i ∈ s.disposedBgs, i ∈ s1.disposedBgs := by
  unfold TransitionPass.transition at h
  split at h
  · simp at h
  case _ s0 hstop =>
    injection h with h
    subst h
    exact stopTween_mono s s0 hstop

theorem tick_mono (s : TransitionPass) (t : ℚ) (s1 : TransitionPass)
    (h : s.tick t = .ok s1) :
    s.nextEffectId ≤ s1.nextEffectId ∧ ∀ i ∈ s.disposedBgs, i ∈ s1.disposedBgs := by
  unfold TransitionPass.tick at h
  split at h
  · injection h with h
    subst h
    exact ⟨Nat.le_refl _, fun i hi => hi⟩
  · split at h
    · injection h with h
      subst h
      exact ⟨Nat.le_refl _, fun i hi => hi⟩
    case _ c hc =>
      split at h
      · injection h with h
        subst h
        exact ⟨Nat.le_refl _, fun i hi => hi⟩
      · split at h
        · simp at h
        case _ s3 hupd =>
          obtain ⟨_, _, _, hn3, hd3, _, _, _, _, _, _, _⟩ :=
            applyOnUpdate_ok _ c _ s3 hupd
          have hnsp : s.nextEffectId ≤ s3.nextEffectId := by
            have h1 := startPhase_nextEffectId_ge s c
            have h2 : s3.nextEffectId = (s.startPhase c).nextEffectId := hn3
            omega
          have hdsp : s3.disposedBgs = s.disposedBgs := by
            have h1 := startPhase_disposedBgs s c
            have h2 : s3.disposedBgs = (s.startPhase c).disposedBgs := hd3
            rw [h2, h1]
          rcases finishPhase_ok s3 c _ s1 h with
            ⟨_, _, _, _, _, _, _, f7, f8, _, _, _, _⟩ | ⟨_, heq⟩
          · constructor
            · omega
            · intro i hi
              rw [f8, hdsp]
              exact List.mem_cons_of_mem _ hi
          · subst heq
            constructor
            · exact hnsp
            · intro i hi
              rw [hdsp]
              exact hi

theorem render_mono (s : TransitionPass) (s1 : TransitionPass)
    (h : s.render = .ok s1) :
    s.nextEffectId ≤ s1.nextEffectId ∧ ∀ i ∈ s.disposedBgs, i ∈ s1.disposedBgs := by
  obtain ⟨_, _, _, _, hn, hd⟩ := render_ok s s1 h
  exact ⟨Nat.le_of_eq hn.symm, fun i hi => by rw [hd]; exact hi⟩

theorem step_inv (s : TransitionPass) (a : Act) (s1 : TransitionPass)
    (hInv : Inv s) (h : step s a = .ok s1) : Inv s1 := by
  cases a with
  | transition now bg kind cfg rng => exact transition_inv s now bg kind cfg rng s1 hInv h
  | tick t => exact tick_inv s t s1 hInv h
  | setSize w hh =>
    injection h with h
    subst h
    exact setSize_inv s w hh hInv
  | render => exact render_inv s s1 hInv h

theorem step_mono (s : TransitionPass) (a : Act) (s1 : TransitionPass)
    (h : step s a = .ok s1) :
    s.nextEffectId ≤ s1.nextEffectId ∧ ∀ i ∈ s.disposedBgs, i ∈ s1.disposedBgs := by
  cases a with
  | transition now bg kind cfg rng => exact transition_mono s now bg kind cfg rng s1 h
  | tick t => exact tick_mono s t s1 h
  | setSize w hh =>
    injection h with h
    subst h
    exact ⟨Nat.le_refl _, fun i hi => hi⟩
  | render => exact render_mono s s1 h

theorem run_inv (acts : List Act) (s : TransitionPass) (s1 : TransitionPass)
    (hInv : Inv s) (h : run s acts = .ok s1) : Inv s1 := by
  induction acts generalizing s with
  | nil =>
    unfold run at h
    injection h with h
    subst h
    exact hInv
  | cons a rest ih =>
    unfold run at h
    split at h
    · simp at h
    case _ s2 hstep =>
      exact ih s2 (step_inv s a s2 hInv hstep) h

theorem run_mono (acts : List Act) (s : TransitionPass) (s1 : TransitionPass)
    (h : run s acts = .ok s1) :
    s.nextEffectId ≤ s1.nextEffectId ∧ ∀ i ∈ s.disposedBgs, i ∈ s1.disposedBgs := by
  induction acts generalizing s with
  | nil =>
    unfold run at h
    injection h with h
    subst h
    exact ⟨Nat.le_refl _, fun i hi => hi⟩
  | cons a rest ih =>
    unfold run at h
    split at h
    · simp at h
    case _ s2 hstep =>
      obtain ⟨m1, m2⟩ := step_mono s a s2 hstep
      obtain ⟨m3, m4⟩ := ih s2 h
      exact ⟨Nat.le_trans m1 m3, fun i hi => m4 i (m2 i hi)⟩

theorem construct_inv (ext : Externals) (bg : Option Background) (w h : ℚ) :
    Inv (TransitionPass.construct ext bg w h) := by
  refine ⟨?_, ?_, ?_, ?_, ?_⟩ <;>
    simp [TransitionPass.construct, Tween.initial, ctxKind, effCountersB, ctxMatchesB]

/-- A concrete choice for the abstract external collaborators, used by the
evaluated scenarios below. -/
def exts0 : Externals :=
  { depthFn := fun _ _ _ _ => 5, degToRad := fun d => d / 57 }

/-- A texture whose decoded image is 4 pixels wide and 3 pixels tall. -/
def texA : Texture := { image := some { width := 4, height := 3 } }

/-- A background built over a real texture, retained by the pass at
construction. -/
def bgPrev : Background := Background.construct exts0 100 (some texA) 200 100

/-- The background supplied to a first transition call. -/
def bgNew : Background := Background.construct exts0 101 (some texA) 200 100

/-- The background supplied to an interrupting second transition call. -/
def bgThird : Background := Background.construct exts0 102 (some texA) 200 100

/-- The empty configuration object. -/
def emptyCfg : BackgroundTransitionConfig := {}

/-- A one second transition. -/
def cfgDur1 : BackgroundTransitionConfig := { duration := some 1 }

/-- A two second transition. -/
def cfgDur2 : BackgroundTransitionConfig := { duration := some 2 }

/-- A ten second transition. -/
def cfgDur10 : BackgroundTransitionConfig := { duration := some 10 }

/-- A pass constructed over a real background at 200 x 100. -/
def pass0 : TransitionPass := TransitionPass.construct exts0 (some bgPrev) 200 100

/-- Extract the state of a successful execution (a harmless default
otherwise; only applied where the execution is known to succeed). -/
def orDefault (r : Except String TransitionPass) : TransitionPass :=
  r.toOption.getD (TransitionPass.construct exts0 none 1 1)

/-- C2: the documented Completed behaviour (dispose the old previous unit,
adopt the supplied one, disable) aborts with a TypeError when the old
previous unit is a synthesized blank unit: its `material.map` is null, so
`Background.dispose` throws before `previousUnit` is reassigned.  This
evaluates the code at the failing input: a pass constructed without a
background, a Blend transition to a real unit with duration 1s, and the
animation update at t=1000ms that completes it. -/
theorem C2_blank_prev_completion_raises :
    run (TransitionPass.construct exts0 none 100 100)
      [Act.transition 0 (some bgNew) TransitionType.Blend cfgDur1 0, Act.tick 1000]
      = Except.error "TypeError: null material map in Background.dispose" := by
  norm_num [run, step, TransitionPass.transition, TransitionPass.stopTween,
    TransitionPass.onTransitionEnd, TransitionPass.construct, TransitionPass.tick,
    TransitionPass.startPhase, TransitionPass.applyOnStart, TransitionPass.withAmount,
    TransitionPass.applyOnUpdate, TransitionPass.finishPhase,
    TransitionPass.setTransitionEffect, Background.dispose, Background.construct,
    resolveConfig, tweenElapsed, Tween.initial, cfgDur1, bgNew, exts0, texA, linearNone,
    Uniforms.updateUniforms, overlay, TransitionPass.withUniforms]

/-- C9: `dispose()` on a pass on which no transition was ever started raises:
the stop is a no-op and the previous background releases fine, but
`this._transitionEffect.dispose()` dereferences an undefined field. -/
theorem C9_dispose_never_started_raises :
    pass0.dispose =
      Except.error "TypeError: undefined transitionEffect in TransitionPass.dispose" := by
  norm_num [TransitionPass.dispose, TransitionPass.stopTween, TransitionPass.construct,
    pass0, bgPrev, Background.construct, Background.dispose, Tween.initial, exts0, texA]

/-- C10: every Scene Unit constructed with a null texture - exactly the blank
units the orchestrator synthesizes - has a null backdrop material map and its
dispose throws; the error branch is reachable at the public interface: a pass
whose first transition omitted the new unit adopts a synthesized blank unit,
and the completion of the next transition disposes it and raises. -/
theorem C10_blank_unit_dispose_raises :
    (∀ (ext : Externals) (id : ℕ) (w h : ℚ),
      (Background.construct ext id none w h).texture = none ∧
      (Background.construct ext id none w h).dispose =
        Except.error "TypeError: null material map in Background.dispose")
    ∧ (∀ (ext : Externals) (w h : ℚ),
      (TransitionPass.construct ext none w h).prevBackground.texture = none)
    ∧ run pass0
        [Act.transition 0 none TransitionType.Blend cfgDur1 0, Act.tick 1000,
         Act.transition 2000 (some bgNew) TransitionType.Blend cfgDur1 0, Act.tick 3000]
        = Except.error "TypeError: null material map in Background.dispose" := by
  refine ⟨fun ext id w h => ⟨rfl, rfl⟩, fun ext w h => rfl, ?_⟩
  norm_num [run, step, TransitionPass.transition, TransitionPass.stopTween,
    TransitionPass.onTransitionEnd, TransitionPass.construct, TransitionPass.tick,
    TransitionPass.startPhase, TransitionPass.applyOnStart, TransitionPass.withAmount,
    TransitionPass.applyOnUpdate, TransitionPass.finishPhase,
    TransitionPass.setTransitionEffect, Background.dispose, Background.construct,
    resolveConfig, tweenElapsed, Tween.initial, cfgDur1, bgNew, bgPrev, pass0, exts0,
    texA, linearNone, Uniforms.updateUniforms, overlay, TransitionPass.withUniforms]

/-- C8: a Scene Unit constructed with a source image has a unit-width
backdrop plane of height 1/(imageWidth/imageHeight); absent an image the
aspect ratio defaults to 1; the particle extent is 1.1 times the backdrop's
on both axes; and the particle depth bound is the camera's maximum
full-screen depth for the backdrop plane. -/
theorem C8_background_sizing (ext : Externals) (id : ℕ) (texture : Option Texture)
    (w h : ℚ) :
    (Background.construct ext id texture w h).planeWidth = 1
    ∧ (∀ tx img, texture = some tx → tx.image = some img →
        (Background.construct ext id texture w h).planeHeight =
          1 / (img.width / img.height))
    ∧ (texture = none → (Background.construct ext id texture w h).planeHeight = 1)
    ∧ (∀ tx, texture = some tx → tx.image = none →
        (Background.construct ext id texture w h).planeHeight = 1)
    ∧ (Background.construct ext id texture w h).particlesWidth =
        (Background.construct ext id texture w h).planeWidth * (11 / 10)
    ∧ (Background.construct ext id texture w h).particlesHeight =
        (Background.construct ext id texture w h).planeHeight * (11 / 10)
    ∧ (Background.construct ext id texture w h).particlesMaxDepth =
        ext.depthFn (Background.construct ext id texture w h).planeWidth
          (Background.construct ext id texture w h).planeHeight w h := by
  refine ⟨rfl, ?_, ?_, ?_, rfl, rfl, rfl⟩
  · intro tx img ht himg
    subst ht
    simp [Background.construct, textureAspectRatio, himg]
  · intro ht
    subst ht
    simp [Background.construct, textureAspectRatio]
  · intro tx ht himg
    subst ht
    simp [Background.construct, textureAspectRatio, himg]

/-- C8 witness: with a 4 x 3 source image the plane height is 1/(4/3); with a
null texture it is 1. -/
theorem C8_background_sizing_witness :
    (Background.construct exts0 7 (some texA) 200 100).planeHeight = 1 / ((4 : ℚ) / 3)
    ∧ (Background.construct exts0 8 none 200 100).planeHeight = 1 := by
  constructor
  · exact (C8_background_sizing exts0 7 (some texA) 200 100).2.1 texA
      { width := 4, height := 3 } rfl rfl
  · exact (C8_background_sizing exts0 8 none 200 100).2.2.1 rfl

theorem applyOnUpdate_wipe_eq (s : TransitionPass) (c : TransCtx) (a : ℚ)
    (hk : c.kind = TransitionType.Wipe) :
    s.applyOnUpdate c a =
      match s.transitionEffect with
      | none => .error "TypeError: undefined transitionEffect in onUpdate"
      | some e =>
        .ok (s.withUniforms e (e.uniforms.updateUniforms
          { amount := some a, aspect := some (s.width / s.height) })) := by
  unfold TransitionPass.applyOnUpdate
  rw [hk]

theorem applyOnUpdate_glitch_eq (s : TransitionPass) (c : TransCtx) (a : ℚ)
    (hk : c.kind = TransitionType.Glitch) :
    s.applyOnUpdate c a =
      match s.transitionEffect with
      | none => .error "TypeError: undefined transitionEffect in onUpdate"
      | some e =>
        .ok (s.withUniforms e
          (Uniforms.updateUniforms { e.uniforms with resolution := some (s.width, s.height) }
            { amount := some a })) := by
  unfold TransitionPass.applyOnUpdate
  rw [hk]

theorem applyOnUpdate_slideblur_eq (s : TransitionPass) (c : TransCtx) (a : ℚ)
    (hk : c.kind = TransitionType.Slide ∨ c.kind = TransitionType.Blur) :
    s.applyOnUpdate c a =
      match s.transitionEffect with
      | none => .error "TypeError: undefined transitionEffect in onUpdate"
      | some e =>
        .ok (s.withUniforms e (e.uniforms.updateUniforms
          { prevAmount := e.uniforms.amount, amount := some a })) := by
  rcases hk with hk | hk <;> (unfold TransitionPass.applyOnUpdate; rw [hk])

/-- C7: every unspecified optional config field receives its documented
per-kind default: easing linear, duration 0, delay 0 for all kinds; gradient
0, angle 0 degrees, direction Right for Wipe; slides 1, intensity 1, samples
32, direction Right for Slide; intensity 1, samples 32 for Blur; and for
Glitch a seed drawn from [0,1) when omitted.  The first group of conjuncts
states per-field defaulting for arbitrary partial configurations; the second
group instantiates the fully-defaulted parameter records. -/
theorem C7_config_defaults (cfg : BackgroundTransitionConfig) (rng : ℚ)
    (hr : 0 ≤ rng ∧ rng < 1) :
    (∀ kind, cfg.easing = none → (resolveConfig kind cfg rng).easing = linearNone)
    ∧ (∀ kind, cfg.duration = none → (resolveConfig kind cfg rng).duration = 0)
    ∧ (∀ kind, cfg.delay = none → (resolveConfig kind cfg rng).delay = 0)
    ∧ (resolveConfig TransitionType.Wipe cfg rng).params =
        KindParams.wipe (cfg.gradient.getD 0) (cfg.angle.getD 0)
          (cfg.wipeDirection.getD WipeDirection.Right)
    ∧ (resolveConfig TransitionType.Slide cfg rng).params =
        KindParams.slide (cfg.slides.getD 1) (cfg.intensity.getD 1)
          (cfg.samples.getD 32) (cfg.slideDirection.getD SlideDirection.Right)
    ∧ (resolveConfig TransitionType.Blur cfg rng).params =
        KindParams.blur (cfg.intensity.getD 1) (cfg.samples.getD 32)
    ∧ (cfg.gradient = none → cfg.angle = none → cfg.wipeDirection = none →
        (resolveConfig TransitionType.Wipe cfg rng).params =
          KindParams.wipe 0 0 WipeDirection.Right)
    ∧ (cfg.slides = none → cfg.intensity = none → cfg.samples = none →
        cfg.slideDirection = none →
        (resolveConfig TransitionType.Slide cfg rng).params =
          KindParams.slide 1 1 32 SlideDirection.Right)
    ∧ (cfg.intensity = none → cfg.samples = none →
        (resolveConfig TransitionType.Blur cfg rng).params = KindParams.blur 1 32)
    ∧ (cfg.seed = none →
        (resolveConfig TransitionType.Glitch cfg rng).params = KindParams.glitch rng
        ∧ 0 ≤ rng ∧ rng < 1) := by
  refine ⟨?_, ?_, ?_, rfl, rfl, rfl, ?_, ?_, ?_, ?_⟩
  · intro kind he
    simp [resolveConfig, he]
  · intro kind hd
    simp [resolveConfig, hd]
  · intro kind hd
    simp [resolveConfig, hd]
  · intro h1 h2 h3
    simp [resolveConfig, h1, h2, h3]
  · intro h1 h2 h3 h4
    simp [resolveConfig, h1, h2, h3, h4]
  · intro h1 h2
    simp [resolveConfig, h1, h2]
  · intro h1
    exact ⟨by simp [resolveConfig, h1], hr.1, hr.2⟩

/-- C7 witness: the empty configuration with a Math.random draw of 1/2. -/
theorem C7_config_defaults_witness :
    ((0 : ℚ) ≤ 1 / 2 ∧ (1 : ℚ) / 2 < 1)
    ∧ (resolveConfig TransitionType.Wipe emptyCfg (1 / 2)).params =
        KindParams.wipe 0 0 WipeDirection.Right
    ∧ (resolveConfig TransitionType.Slide emptyCfg (1 / 2)).params =
        KindParams.slide 1 1 32 SlideDirection.Right
    ∧ (resolveConfig TransitionType.Blur emptyCfg (1 / 2)).params =
        KindParams.blur 1 32
    ∧ (resolveConfig TransitionType.Glitch emptyCfg (1 / 2)).params =
        KindParams.glitch (1 / 2)
    ∧ (resolveConfig TransitionType.None emptyCfg (1 / 2)).duration = 0
    ∧ (resolveConfig TransitionType.None emptyCfg (1 / 2)).easing = linearNone := by
  have hr : (0 : ℚ) ≤ 1 / 2 ∧ (1 : ℚ) / 2 < 1 := by norm_num
  have h := C7_config_defaults emptyCfg (1 / 2) hr
  exact ⟨hr, h.2.2.2.2.2.2.1 rfl rfl rfl, h.2.2.2.2.2.2.2.1 rfl rfl rfl rfl,
    h.2.2.2.2.2.2.2.2.1 rfl rfl, (h.2.2.2.2.2.2.2.2.2 rfl).1,
    h.2.1 TransitionType.None rfl, h.1 TransitionType.None rfl⟩

/-- C5: a `setSize` performed mid-transition takes effect on the very next
animation update: once a transition's start callback has fired, the update at
any time `t` past the start time recomputes a Wipe effect's aspect uniform as
the live width/height ratio, and re-syncs a Glitch effect's resolution
uniform to the live width and height. -/
theorem C5_setSize_live_uniforms (s : TransitionPass) (c : TransCtx) (w h t : ℚ)
    (s2 : TransitionPass)
    (hplay : s.tween.playing = true)
    (hctx : s.tween.ctx = some c)
    (hfired : s.tween.startFired = true)
    (hts : ¬ t < s.tween.startTime)
    (hrun : (s.setSize w h).tick t = .ok s2) :
    (c.kind = TransitionType.Wipe → (currentUniforms s2).aspect = some (w / h))
    ∧ (c.kind = TransitionType.Glitch →
        (currentUniforms s2).resolution = some (w, h)) := by
  unfold TransitionPass.tick at hrun
  split at hrun
  case isTrue hx =>
    have hx2 : s.tween.playing = false := hx
    rw [hplay] at hx2
    exact Bool.noConfusion hx2
  case isFalse hx =>
    split at hrun
    case _ hcx =>
      have hcx2 : s.tween.ctx = none := hcx
      rw [hctx] at hcx2
      exact Option.noConfusion hcx2
    case _ c2 hcx =>
      have hcx2 : s.tween.ctx = some c2 := hcx
      rw [hctx] at hcx2
      have hcc : c2 = c := (Option.some.inj hcx2).symm
      subst hcc
      split at hrun
      case isTrue hlt =>
        exact absurd (show t < s.tween.startTime from hlt) hts
      case isFalse hlt =>
        have hfired2 : ((s.setSize w h)).tween.startFired = true := hfired
        rw [startPhase_of_fired (s.setSize w h) c2 hfired2] at hrun
        split at hrun
        · simp at hrun
        case _ s3 hupd =>
          have heq23 : s2.transitionEffect = s3.transitionEffect := by
            rcases finishPhase_ok s3 c2 _ s2 hrun with
              ⟨_, _, _, _, _, f5, _, _, _, _, _, _, _⟩ | ⟨_, hq⟩
            · exact f5
            · rw [hq]
          constructor
          · intro hk
            rw [applyOnUpdate_wipe_eq _ c2 _ hk] at hupd
            split at hupd
            · simp at hupd
            case _ e he =>
              injection hupd with hupd
              subst hupd
              unfold currentUniforms
              rw [heq23]
              simp [TransitionPass.withUniforms, Uniforms.updateUniforms, overlay,
                TransitionPass.setSize, TransitionPass.withAmount]
          · intro hk
            rw [applyOnUpdate_glitch_eq _ c2 _ hk] at hupd
            split at hupd
            · simp at hupd
            case _ e he =>
              injection hupd with hupd
              subst hupd
              unfold currentUniforms
              rw [heq23]
              simp [TransitionPass.withUniforms, Uniforms.updateUniforms, overlay,
                TransitionPass.setSize, TransitionPass.withAmount]

/-- C6: for Slide and Blur, each animation update past the first writes a
`prevAmount` uniform equal to the `amount` written at the immediately
preceding update (read back from the live uniform set before the new amount
overwrites it), and writes the freshly eased amount. -/
theorem C6_prevAmount_chained (s : TransitionPass) (c : TransCtx) (aPrev t : ℚ)
    (s2 : TransitionPass)
    (hplay : s.tween.playing = true)
    (hctx : s.tween.ctx = some c)
    (hfired : s.tween.startFired = true)
    (hkind : c.kind = TransitionType.Slide ∨ c.kind = TransitionType.Blur)
    (hamt : (currentUniforms s).amount = some aPrev)
    (hts : ¬ t < s.tween.startTime)
    (hrun : s.tick t = .ok s2) :
    (currentUniforms s2).prevAmount = some aPrev
    ∧ (currentUniforms s2).amount =
        some (s.tween.easing (tweenElapsed s.tween t)) := by
  have heffs : ∃ e, s.transitionEffect = some e ∧ e.uniforms.amount = some aPrev := by
    cases he : s.transitionEffect with
    | none =>
      unfold currentUniforms at hamt
      rw [he] at hamt
      simp at hamt
    | some e =>
      refine ⟨e, rfl, ?_⟩
      unfold currentUniforms at hamt
      rw [he] at hamt
      simpa using hamt
  obtain ⟨e, he, hea⟩ := heffs
  unfold TransitionPass.tick at hrun
  split at hrun
  case isTrue hx =>
    rw [hplay] at hx
    exact Bool.noConfusion hx
  case isFalse hx =>
    split at hrun
    case _ hcx =>
      rw [hctx] at hcx
      exact Option.noConfusion hcx
    case _ c2 hcx =>
      rw [hctx] at hcx
      have hcc : c2 = c := (Option.some.inj hcx).symm
      subst hcc
      rw [startPhase_of_fired s c2 hfired] at hrun
      split at hrun
      · simp at hrun
      case _ s3 hupd =>
        have heq23 : s2.transitionEffect = s3.transitionEffect := by
          rcases finishPhase_ok s3 c2 _ s2 hrun with
            ⟨_, _, _, _, _, f5, _, _, _, _, _, _, _⟩ | ⟨_, hq⟩
          · exact f5
          · rw [hq]
        rw [applyOnUpdate_slideblur_eq _ c2 _ hkind] at hupd
        split at hupd
        · simp at hupd
        case _ e2 he2 =>
          have he2s : s.transitionEffect = some e2 := he2
          rw [he] at he2s
          have hee : e2 = e := Option.some.inj he2s.symm
          subst hee
          injection hupd with hupd
          subst hupd
          unfold currentUniforms
          rw [heq23]
          simp [TransitionPass.withUniforms, Uniforms.updateUniforms, overlay, hea]

theorem effCounters_of_some (s : TransitionPass) (e : TransitionEffect)
    (hc : effCountersB s = true) (he : s.transitionEffect = some e) :
    s.effectDisposedBelow = e.id ∧ s.nextEffectId = e.id + 1 := by
  unfold effCountersB at hc
  rw [he] at hc
  simpa using hc

/-- C1: calling `transition()` while a previous transition's animation is
still active stops it synchronously - when the call returns, the previous
transition's Ending logic has already run (its previous Scene Unit is
disposed, the pass is disabled) and the new, not-yet-started animation is the
only one installed (the single tween slot of the state enforces at most one
ProgressAnimation); and in every later state, as soon as the current effect
differs from the first transition's effect (i.e. any state whose render would
composite the second transition's effect), the first transition's effect has
been disposed and the disposed previous Scene Unit stays disposed. -/
theorem C1_interrupt_stops_and_disposes (s : TransitionPass) (e1 : TransitionEffect)
    (c0 : TransCtx) (now : ℚ) (bg2 : Option Background) (kind : TransitionType)
    (cfg : BackgroundTransitionConfig) (rng : ℚ) (s1 : TransitionPass)
    (hInv : Inv s)
    (hplay : s.tween.playing = true)
    (hctx : s.tween.ctx = some c0)
    (heff : s.transitionEffect = some e1)
    (hcall : s.transition now bg2 kind cfg rng = .ok s1) :
    (s1.tween.playing = true ∧ s1.tween.startFired = false ∧
      s1.tween.ctx = some
        { kind := kind, background := bg2, params := (resolveConfig kind cfg rng).params } ∧
      s.prevBackground.id ∈ s1.disposedBgs ∧
      s1.enabled = false ∧
      s1.transitionEffect = some e1)
    ∧ (∀ (acts : List Act) (s2 : TransitionPass) (e2 : TransitionEffect),
        run s1 acts = .ok s2 → s2.transitionEffect = some e2 → e2.id ≠ e1.id →
        e1.id < s2.effectDisposedBelow ∧ s.prevBackground.id ∈ s2.disposedBgs) := by
  have hInv1 : Inv s1 := transition_inv s now bg2 kind cfg rng s1 hInv hcall
  unfold TransitionPass.transition at hcall
  split at hcall
  · simp at hcall
  case _ s0 hstop =>
    injection hcall with hcall
    have hstopOk := stopTween_ok s s0 hInv hstop
    obtain ⟨he0, hp0, heff0, hb0, hn0, _, _, _, hsub0, hdisp0⟩ := hstopOk
    have hmem0 : s.prevBackground.id ∈ s0.disposedBgs := hdisp0 hplay c0 hctx
    have hpart1 : s1.tween.playing = true ∧ s1.tween.startFired = false ∧
        s1.tween.ctx = some
          { kind := kind, background := bg2,
            params := (resolveConfig kind cfg rng).params } ∧
        s.prevBackground.id ∈ s1.disposedBgs ∧
        s1.enabled = false ∧
        s1.transitionEffect = some e1 := by
      subst hcall
      refine ⟨rfl, rfl, rfl, hmem0, he0, ?_⟩
      show s0.transitionEffect = some e1
      rw [heff0, heff]
    refine ⟨hpart1, ?_⟩
    intro acts s2 e2 hrun2 heff2 hne
    have hInv2 : Inv s2 := run_inv acts s1 s2 hInv1 hrun2
    obtain ⟨hmono, hsub⟩ := run_mono acts s1 s2 hrun2
    obtain ⟨_, hnx1⟩ := effCounters_of_some s1 e1 hInv1.2.2.2.1 hpart1.2.2.2.2.2
    obtain ⟨hbl2, hnx2⟩ := effCounters_of_some s2 e2 hInv2.2.2.2.1 heff2
    constructor
    · have : e1.id + 1 ≤ e2.id + 1 := by
        rw [← hnx1, ← hnx2]
        exact hmono
      rw [hbl2]
      omega
    · exact hsub s.prevBackground.id hpart1.2.2.2.1

/-- C3 counterexample: immediately after `transition()` returns - before the
first animation update fires the start callback - the tween reports it is
playing while the pass is still disabled, so the enabled flag is not
equivalent to an animation being in flight.  The state is exhibited as the
result of one public `transition` call on a freshly constructed pass. -/
def sAfterCall : TransitionPass :=
  { externals := exts0,
    width := 200,
    height := 100,
    prevBackground := bgPrev,
    buffer := { width := 200, height := 100, writes := 0 },
    tween :=
      { playing := true,
        startFired := false,
        startTime := 0,
        duration := 10000,
        easing := linearNone,
        amount := 0,
        ctx := some
          { kind := TransitionType.Blend,
            background := some bgNew,
            params := KindParams.blend } },
    transitionEffect := none,
    enabled := false,
    nextEffectId := 0,
    effectDisposedBelow := 0,
    nextBgId := 0,
    disposedBgs := [] }

theorem eval_afterCall :
    run pass0 [Act.transition 0 (some bgNew) TransitionType.Blend cfgDur10 0]
      = Except.ok sAfterCall := by
  norm_num [run, step, TransitionPass.transition, TransitionPass.stopTween,
    TransitionPass.construct, Tween.initial, resolveConfig, cfgDur10, pass0,
    sAfterCall, linearNone]

/-- C3 counterexample: after the exhibited `transition()` call the animation
is playing (isTransitioning() is true) while `enabled` is false, refuting
"enabled is true iff an animation is currently playing". -/
theorem C3_counterexample_enabled_not_iff_playing :
    run pass0 [Act.transition 0 (some bgNew) TransitionType.Blend cfgDur10 0]
      = Except.ok sAfterCall
    ∧ sAfterCall.isTransitioning = true
    ∧ ¬(sAfterCall.enabled = true ↔ sAfterCall.tween.playing = true) := by
  refine ⟨eval_afterCall, rfl, ?_⟩
  intro hiff
  exact Bool.noConfusion (hiff.mpr rfl)

/-- C3 (amended): in every state reachable through the public operations, the
pass is enabled iff a non-None transition's animation is playing and its
start callback has fired (so the enabled flag lags isPlaying during the delay
window and the window before the first update, and the None kind never
enables the pass), and `isTransitioning()` returns exactly whether the
animation is playing - so it is false before the first transition and false
immediately after completion or stop. -/
theorem C3_enabled_iff_fired (ext : Externals) (bg : Option Background)
    (w h : ℚ) (acts : List Act) (s : TransitionPass)
    (hrun : run (TransitionPass.construct ext bg w h) acts = .ok s) :
    (s.enabled = true ↔
      (s.tween.playing = true ∧ s.tween.startFired = true ∧
        ctxKind s ≠ some TransitionType.None))
    ∧ s.isTransitioning = s.tween.playing
    ∧ (TransitionPass.construct ext bg w h).isTransitioning = false := by
  have hInv := run_inv acts _ s (construct_inv ext bg w h) hrun
  exact ⟨hInv.1, rfl, rfl⟩

/-- C4 counterexample: a `render()` call made after `transition()` but before
the first animation update dereferences the still-unconstructed effect (the
modelled TypeError), refuting "for every call to render() made before the
internal TransitionEffect has been constructed, the effect is never
dereferenced". -/
theorem C4_counterexample_render_derefs_unconstructed :
    run pass0 [Act.transition 0 (some bgNew) TransitionType.Blend cfgDur10 0]
      = Except.ok sAfterCall
    ∧ sAfterCall.transitionEffect = none
    ∧ sAfterCall.render =
        Except.error "TypeError: undefined transitionEffect in TransitionPass.render" := by
  refine ⟨eval_afterCall, rfl, ?_⟩
  norm_num [TransitionPass.render, sAfterCall]

/-- C4 (amended): `render()` while no transition is active is a no-op - the
state, including the previous Scene Unit's time-advancing counters and the
intermediate buffer, is returned untouched and the effect is not
dereferenced; and in every reachable state where the pass is enabled (the
only states in which the effect composer invokes this pass) the effect has
been constructed, so enabled-gated rendering never dereferences an
unconstructed effect. -/
theorem C4_render_idle_noop_and_enabled_safe :
    (∀ s : TransitionPass, s.tween.playing = false → s.render = Except.ok s)
    ∧ (∀ (ext : Externals) (bg : Option Background) (w h : ℚ) (acts : List Act)
        (s : TransitionPass),
        run (TransitionPass.construct ext bg w h) acts = .ok s →
        s.enabled = true → s.transitionEffect.isSome = true) := by
  constructor
  · intro s hs
    unfold TransitionPass.render
    rw [hs]
    simp
  · intro ext bg w h acts s hrun henb
    exact (run_inv acts _ s (construct_inv ext bg w h) hrun).2.2.1 henb

/-- The state one update into a 10s Blend transition: start callback fired,
effect constructed, pass enabled, amount 1/10. -/
def sMidBlend : TransitionPass :=
  { sAfterCall with
    tween := { sAfterCall.tween with startFired := true, amount := 1 / 10 },
    transitionEffect := some
      { id := 0, shader := ShaderKind.BlendShader,
        uniforms := { mixRatio := some (1 / 10) } },
    enabled := true,
    nextEffectId := 1 }

theorem eval_midBlend :
    run pass0 [Act.transition 0 (some bgNew) TransitionType.Blend cfgDur10 0,
      Act.tick 1000] = Except.ok sMidBlend := by
  norm_num [run, step, TransitionPass.transition, TransitionPass.stopTween,
    TransitionPass.onTransitionEnd, TransitionPass.construct, TransitionPass.tick,
    TransitionPass.startPhase, TransitionPass.applyOnStart, TransitionPass.withAmount,
    TransitionPass.applyOnUpdate, TransitionPass.finishPhase,
    TransitionPass.setTransitionEffect, TransitionPass.withUniforms, resolveConfig,
    tweenElapsed, Tween.initial, Uniforms.updateUniforms, overlay, linearNone,
    cfgDur10, pass0, sMidBlend, sAfterCall]

/-- C3 witness: the reachable states exhibited by one transition call (tween
playing, start not fired, disabled) satisfy the amended equivalence. -/
theorem C3_enabled_iff_fired_witness :
    (sAfterCall.enabled = true ↔
      (sAfterCall.tween.playing = true ∧ sAfterCall.tween.startFired = true ∧
        ctxKind sAfterCall ≠ some TransitionType.None))
    ∧ sAfterCall.isTransitioning = sAfterCall.tween.playing
    ∧ (TransitionPass.construct exts0 (some bgPrev) 200 100).isTransitioning = false :=
  C3_enabled_iff_fired exts0 (some bgPrev) 200 100
    [Act.transition 0 (some bgNew) TransitionType.Blend cfgDur10 0] sAfterCall
    eval_afterCall

/-- C4 witness: render on an idle pass is a no-op, and a reachable enabled
state has a constructed effect. -/
theorem C4_render_witness :
    pass0.tween.playing = false
    ∧ pass0.render = Except.ok pass0
    ∧ sMidBlend.enabled = true
    ∧ sMidBlend.transitionEffect.isSome = true := by
  refine ⟨rfl, C4_render_idle_noop_and_enabled_safe.1 pass0 rfl, rfl, ?_⟩
  exact C4_render_idle_noop_and_enabled_safe.2 exts0 (some bgPrev) 200 100
    [Act.transition 0 (some bgNew) TransitionType.Blend cfgDur10 0, Act.tick 1000]
    sMidBlend eval_midBlend rfl

/-- The state after interrupting the Blend transition of `sMidBlend` with a
Wipe transition at t=1000ms: the old previous unit (id 100) is disposed, the
Blend unit is adopted, the stale Blend effect is still installed, and the new
tween has not fired its start callback. -/
def sWipePre : TransitionPass :=
  { externals := exts0,
    width := 200,
    height := 100,
    prevBackground := bgNew,
    buffer := { width := 200, height := 100, writes := 0 },
    tween :=
      { playing := true,
        startFired := false,
        startTime := 1000,
        duration := 10000,
        easing := linearNone,
        amount := 0,
        ctx := some
          { kind := TransitionType.Wipe,
            background := some bgThird,
            params := KindParams.wipe 0 0 WipeDirection.Right } },
    transitionEffect := some
      { id := 0, shader := ShaderKind.BlendShader,
        uniforms := { mixRatio := some (1 / 10) } },
    enabled := false,
    nextEffectId := 1,
    effectDisposedBelow := 0,
    nextBgId := 0,
    disposedBgs := [100] }

theorem eval_wipePre :
    sMidBlend.transition 1000 (some bgThird) TransitionType.Wipe cfgDur10 0
      = Except.ok sWipePre := by
  norm_num [TransitionPass.transition, TransitionPass.stopTween,
    TransitionPass.onTransitionEnd, Background.dispose, resolveConfig, linearNone,
    cfgDur10, sMidBlend, sAfterCall, sWipePre, bgPrev, bgNew, bgThird,
    Background.construct, textureAspectRatio, exts0, texA]

/-- The state one update into the interrupting Wipe transition: the stale
Blend effect (id 0) has been disposed and the Wipe effect (id 1) constructed
with live aspect 200/100 = 2. -/
def sWipeMid : TransitionPass :=
  { sWipePre with
    tween := { sWipePre.tween with startFired := true, amount := 1 / 20 },
    transitionEffect := some
      { id := 1,
        shader := ShaderKind.WipeShader,
        uniforms :=
          { amount := some (1 / 20),
            aspect := some 2,
            gradient := some 0,
            angle := some 0,
            wipeDirection := some WipeDirection.Right } },
    enabled := true,
    nextEffectId := 2,
    effectDisposedBelow := 1 }

theorem eval_wipeMid :
    run sWipePre [Act.tick 1500] = Except.ok sWipeMid := by
  norm_num [run, step, TransitionPass.tick, TransitionPass.startPhase,
    TransitionPass.applyOnStart, TransitionPass.withAmount, TransitionPass.applyOnUpdate,
    TransitionPass.finishPhase, TransitionPass.setTransitionEffect,
    TransitionPass.withUniforms, tweenElapsed, Uniforms.updateUniforms, overlay,
    linearNone, sWipePre, sWipeMid, exts0]

/-- C1 witness: interrupting the Blend transition disposes the retained unit
(id 100) synchronously, and once the Wipe effect (id 1, not id 0) is live the
Blend effect has been disposed. -/
theorem C1_interrupt_witness :
    (sWipePre.tween.playing = true ∧ sWipePre.enabled = false ∧
      bgPrev.id ∈ sWipePre.disposedBgs)
    ∧ ((0 : ℕ) < sWipeMid.effectDisposedBelow ∧ bgPrev.id ∈ sWipeMid.disposedBgs) := by
  have hInvMid : Inv sMidBlend := by
    refine ⟨⟨fun _ => ⟨rfl, rfl, by decide⟩, fun _ => rfl⟩, fun _ => rfl, fun _ => rfl,
      rfl, rfl⟩
  have h := C1_interrupt_stops_and_disposes sMidBlend
    { id := 0, shader := ShaderKind.BlendShader, uniforms := { mixRatio := some (1 / 10) } }
    { kind := TransitionType.Blend, background := some bgNew, params := KindParams.blend }
    1000 (some bgThird) TransitionType.Wipe cfgDur10 0 sWipePre
    hInvMid rfl rfl rfl eval_wipePre
  have h2 := h.2 [Act.tick 1500] sWipeMid
    { id := 1,
      shader := ShaderKind.WipeShader,
      uniforms :=
        { amount := some (1 / 20),
          aspect := some 2,
          gradient := some 0,
          angle := some 0,
          wipeDirection := some WipeDirection.Right } }
    eval_wipeMid rfl (by decide)
  exact ⟨⟨h.1.1, h.1.2.2.2.2.1, h.1.2.2.2.1⟩, ⟨h2.1, h2.2⟩⟩

/-- The Wipe mid-transition state after a live resize to 300 x 100 and the
next update at t=2000ms: the aspect uniform is recomputed as 300/100 = 3. -/
def sWipeLive : TransitionPass :=
  { sWipeMid with
    width := 300,
    height := 100,
    prevBackground := { bgNew with width := 300, height := 100 },
    buffer := { width := 300, height := 100, writes := 0 },
    tween := { sWipeMid.tween with amount := 1 / 10 },
    transitionEffect := some
      { id := 1,
        shader := ShaderKind.WipeShader,
        uniforms :=
          { amount := some (1 / 10),
            aspect := some 3,
            gradient := some 0,
            angle := some 0,
            wipeDirection := some WipeDirection.Right } } }

theorem eval_wipeLive :
    (sWipeMid.setSize 300 100).tick 2000 = Except.ok sWipeLive := by
  norm_num [TransitionPass.setSize, TransitionPass.tick, TransitionPass.startPhase,
    TransitionPass.applyOnStart, TransitionPass.withAmount, TransitionPass.applyOnUpdate,
    TransitionPass.finishPhase, TransitionPass.setTransitionEffect,
    TransitionPass.withUniforms, tweenElapsed, Uniforms.updateUniforms, overlay,
    linearNone, Background.setSize, sWipeMid, sWipePre, sWipeLive, bgNew,
    Background.construct, textureAspectRatio, exts0, texA]

/-- The state one update into a 10s Glitch transition with seed 1/2. -/
def sGlitchMid : TransitionPass :=
  { sAfterCall with
    tween :=
      { sAfterCall.tween with
        startFired := true,
        amount := 1 / 10,
        ctx := some
          { kind := TransitionType.Glitch,
            background := some bgNew,
            params := KindParams.glitch (1 / 2) } },
    transitionEffect := some
      { id := 0,
        shader := ShaderKind.GlitchShader,
        uniforms :=
          { seed := some (1 / 2),
            resolution := some (200, 100),
            amount := some (1 / 10) } },
    enabled := true,
    nextEffectId := 1 }

theorem eval_glitchMid :
    run pass0 [Act.transition 0 (some bgNew) TransitionType.Glitch cfgDur10 (1 / 2),
      Act.tick 1000] = Except.ok sGlitchMid := by
  norm_num [run, step, TransitionPass.transition, TransitionPass.stopTween,
    TransitionPass.onTransitionEnd, TransitionPass.construct, TransitionPass.tick,
    TransitionPass.startPhase, TransitionPass.applyOnStart, TransitionPass.withAmount,
    TransitionPass.applyOnUpdate, TransitionPass.finishPhase,
    TransitionPass.setTransitionEffect, TransitionPass.withUniforms, resolveConfig,
    tweenElapsed, Tween.initial, Uniforms.updateUniforms, overlay, linearNone,
    cfgDur10, pass0, sGlitchMid, sAfterCall]

/-- The Glitch mid-transition state after a live resize to 320 x 240 and the
next update at t=2000ms: the resolution uniform is re-synced to (320, 240). -/
def sGlitchLive : TransitionPass :=
  { sGlitchMid with
    width := 320,
    height := 240,
    prevBackground := { bgPrev with width := 320, height := 240 },
    buffer := { width := 320, height := 240, writes := 0 },
    tween := { sGlitchMid.tween with amount := 1 / 5 },
    transitionEffect := some
      { id := 0,
        shader := ShaderKind.GlitchShader,
        uniforms :=
          { seed := some (1 / 2),
            resolution := some (320, 240),
            amount := some (1 / 5) } } }

theorem eval_glitchLive :
    (sGlitchMid.setSize 320 240).tick 2000 = Except.ok sGlitchLive := by
  norm_num [TransitionPass.setSize, TransitionPass.tick, TransitionPass.startPhase,
    TransitionPass.applyOnStart, TransitionPass.withAmount, TransitionPass.applyOnUpdate,
    TransitionPass.finishPhase, TransitionPass.setTransitionEffect,
    TransitionPass.withUniforms, tweenElapsed, Uniforms.updateUniforms, overlay,
    linearNone, Background.setSize, sGlitchMid, sAfterCall, sGlitchLive, bgPrev,
    Background.construct, textureAspectRatio, exts0, texA]

/-- C5 witness: resizing mid-wipe to 300 x 100 makes the very next update
write aspect 300/100, and resizing mid-glitch to 320 x 240 makes the very
next update write resolution (320, 240). -/
theorem C5_setSize_live_witness :
    (currentUniforms sWipeLive).aspect = some ((300 : ℚ) / 100)
    ∧ (currentUniforms sGlitchLive).resolution = some ((320 : ℚ), (240 : ℚ)) := by
  have h1 := C5_setSize_live_uniforms sWipeMid
    { kind := TransitionType.Wipe, background := some bgThird,
      params := KindParams.wipe 0 0 WipeDirection.Right }
    300 100 2000 sWipeLive rfl rfl rfl
    (by norm_num [sWipeMid, sWipePre]) eval_wipeLive
  have h2 := C5_setSize_live_uniforms sGlitchMid
    { kind := TransitionType.Glitch, background := some bgNew,
      params := KindParams.glitch (1 / 2) }
    320 240 2000 sGlitchLive rfl rfl rfl
    (by norm_num [sGlitchMid, sAfterCall]) eval_glitchLive
  exact ⟨h1.1 rfl, h2.2 rfl⟩

/-- The state one update (t=500ms) into a 2s Slide transition: amount 1/4
written, prevAmount still absent. -/
def sSlideMid : TransitionPass :=
  { sAfterCall with
    tween :=
      { sAfterCall.tween with
        startFired := true,
        duration := 2000,
        amount := 1 / 4,
        ctx := some
          { kind := TransitionType.Slide,
            background := some bgNew,
            params := KindParams.slide 1 1 32 SlideDirection.Right } },
    transitionEffect := some
      { id := 0,
        shader := ShaderKind.SlideShader,
        uniforms :=
          { amount := some (1 / 4),
            slides := some 1,
            intensity := some 1,
            samples := some 32,
            slideDirection := some SlideDirection.Right } },
    enabled := true,
    nextEffectId := 1 }

theorem eval_slideMid :
    run pass0 [Act.transition 0 (some bgNew) TransitionType.Slide cfgDur2 0,
      Act.tick 500] = Except.ok sSlideMid := by
  norm_num [run, step, TransitionPass.transition, TransitionPass.stopTween,
    TransitionPass.onTransitionEnd, TransitionPass.construct, TransitionPass.tick,
    TransitionPass.startPhase, TransitionPass.applyOnStart, TransitionPass.withAmount,
    TransitionPass.applyOnUpdate, TransitionPass.finishPhase,
    TransitionPass.setTransitionEffect, TransitionPass.withUniforms, resolveConfig,
    tweenElapsed, Tween.initial, Uniforms.updateUniforms, overlay, linearNone,
    cfgDur2, pass0, sSlideMid, sAfterCall]

/-- The same Slide transition after the update at t=1000ms: prevAmount is the
previous frame's amount 1/4, amount is the fresh 1/2. -/
def sSlideNext : TransitionPass :=
  { sSlideMid with
    tween := { sSlideMid.tween with amount := 1 / 2 },
    transitionEffect := some
      { id := 0,
        shader := ShaderKind.SlideShader,
        uniforms :=
          { amount := some (1 / 2),
            prevAmount := some (1 / 4),
            slides := some 1,
            intensity := some 1,
            samples := some 32,
            slideDirection := some SlideDirection.Right } } }

theorem eval_slideNext :
    sSlideMid.tick 1000 = Except.ok sSlideNext := by
  norm_num [TransitionPass.tick, TransitionPass.startPhase, TransitionPass.applyOnStart,
    TransitionPass.withAmount, TransitionPass.applyOnUpdate, TransitionPass.finishPhase,
    TransitionPass.setTransitionEffect, TransitionPass.withUniforms, tweenElapsed,
    Uniforms.updateUniforms, overlay, linearNone, sSlideMid, sSlideNext, sAfterCall]

/-- C6 witness: the claim's scenario - Slide, duration 2s, linear easing -
at the t=1s update writes amount 1/2 and prevAmount equal to the previous
frame's written amount 1/4, not 0. -/
theorem C6_prevAmount_witness :
    (currentUniforms sSlideNext).prevAmount = some ((1 : ℚ) / 4)
    ∧ (currentUniforms sSlideNext).amount = some ((1 : ℚ) / 2) := by
  have h := C6_prevAmount_chained sSlideMid
    { kind := TransitionType.Slide, background := some bgNew,
      params := KindParams.slide 1 1 32 SlideDirection.Right }
    (1 / 4) 1000 sSlideNext rfl rfl rfl (Or.inl rfl) rfl
    (by norm_num [sSlideMid, sAfterCall]) eval_slideNext
  refine ⟨h.1, ?_⟩
  have h2 := h.2
  norm_num [sSlideMid, sAfterCall, tweenElapsed, linearNone] at h2
  exact h2

end Midori
